import Mathlib

/-! # BOE NT51021 10" 1200p DSI panel driver: sequencing and command table

A shallow embedding of `drivers/gpu/drm/panel/panel-boe-nt51021-10-1200p.c`.

The driver is stateful C that talks to four kinds of collaborators: two
regulators, two GPIO lines, the DSI transport and the kernel log.  The
embedding threads one record, `boe_panel`, through every function.  Besides
the fields of the C `struct boe_panel` that the code reads and writes, the
record holds the observable state of the collaborators behind the handles and
two ghost histories: `trace` (every call made on a collaborator, oldest first)
and `log` (every `dev_err` diagnostic, oldest first).

What a collaborator answers is not decided by the driver.  It is supplied by
an `Env`: each fallible call looks its return code up in the environment, as a
function of the history so far and the arguments of the call, so that any
pattern of failures can be written down and evaluated.

Reads outside a C object (past the end of the command array, or past the bytes
an entry points to) are undefined in C; the embedding returns `none` for them.
-/

namespace BoeNt51021

/-! ## Data model -/

/-- One `char` of command data, as the byte stored in memory. -/
abbrev Byte := Fin 256

/-- Conversion of a plain `char` to `unsigned int`.  Plain `char` is unsigned in
the ARM and AArch64 ABIs, the targets of this MSM8939 tree, so the conversion
keeps the stored byte. -/
def char_to_uint (b : Byte) : Nat := b.val

/-- The C `enum dsi_cmd_type`. -/
inductive dsi_cmd_type where
  | INIT_DCS_CMD
  | DELAY_CMD
deriving DecidableEq, Repr

/-- The C `struct panel_init_cmd`.  `data` is the array the C pointer refers to
(`[]` for a null pointer); `len` is stored separately, as in C. -/
structure panel_init_cmd where
  type : dsi_cmd_type
  len : Nat
  data : List Byte
deriving DecidableEq, Repr

/-- The C initialiser `_INIT_DCS_CMD(...)`. -/
def _INIT_DCS_CMD (bytes : List Byte) : panel_init_cmd :=
  { type := dsi_cmd_type.INIT_DCS_CMD, len := bytes.length, data := bytes }

/-- The C initialiser `_INIT_DELAY_CMD(...)`. -/
def _INIT_DELAY_CMD (bytes : List Byte) : panel_init_cmd :=
  { type := dsi_cmd_type.DELAY_CMD, len := bytes.length, data := bytes }

/-- The C initialiser `{}`: every member zero, used as the end marker of a table. -/
def panel_init_cmd.zero : panel_init_cmd :=
  { type := dsi_cmd_type.INIT_DCS_CMD, len := 0, data := [] }

/-- The two regulators the driver holds handles to. -/
inductive Rail where
  | vled
  | iovcc
deriving DecidableEq, Repr

/-- The two GPIO output lines the driver holds handles to. -/
inductive Line where
  | reset_gpio
  | backlight_gpio
deriving DecidableEq, Repr

/-- The requests the driver makes of the DSI transport. -/
inductive DsiOp where
  /-- call `mipi_dsi_dcs_write(dsi, cmd, data, len)` with `payload` the `len` bytes at `data` -/
  | dcs_write (cmd : Byte) (payload : List Byte)
  /-- call `mipi_dsi_dcs_set_display_off(dsi)` -/
  | dcs_set_display_off
  /-- call `mipi_dsi_dcs_enter_sleep_mode(dsi)` -/
  | dcs_enter_sleep_mode
  /-- call `mipi_dsi_dcs_set_display_brightness(dsi, brightness)`, `brightness` a `u16` -/
  | dcs_set_display_brightness (brightness : Nat)
  /-- call `mipi_dsi_dcs_get_display_brightness(dsi, &brightness)` -/
  | dcs_get_display_brightness
deriving DecidableEq, Repr

/-- One call on a collaborator. -/
inductive Effect where
  /-- call `gpiod_set_value(line, value)` or `gpiod_set_value_cansleep(line, value)` -/
  | gpiod_set_value (line : Line) (value : Bool)
  /-- call `usleep_range(min, max)`, microseconds -/
  | usleep_range (min max : Nat)
  /-- call `msleep(msecs)`, milliseconds -/
  | msleep (msecs : Nat)
  /-- call `regulator_enable(rail)` -/
  | regulator_enable (rail : Rail)
  /-- call `regulator_disable(rail)` -/
  | regulator_disable (rail : Rail)
  /-- a transport request, issued while `dsi->mode_flags` had the value `mode_flags` -/
  | dsi (mode_flags : Nat) (op : DsiOp)
deriving DecidableEq, Repr

/-- The `dev_err` diagnostics of the driver's lifecycle paths. -/
inductive LogMsg where
  /-- message "failed to write command %u", with the index of the command -/
  | failed_to_write_command (i : Nat)
  /-- message "failed to init panel: %d" -/
  | failed_to_init_panel (ret : Int)
  /-- message "failed to set panel off: %d" -/
  | failed_to_set_panel_off (ret : Int)
deriving DecidableEq, Repr

/-- The members of the C `struct panel_desc` the sequencing code reads, and the
scalar display metadata.  The timing mode and the pixel format are only handed
on to the display framework and are left out. -/
structure panel_desc where
  bpc : Nat
  width_mm : Nat
  height_mm : Nat
  mode_flags : Nat
  init_cmds : Option (List panel_init_cmd)
  lanes : Nat
  discharge_on_disable : Bool
deriving DecidableEq, Repr

/-- The members of `struct mipi_dsi_device` the driver writes. -/
structure mipi_dsi_device where
  lanes : Nat
  mode_flags : Nat
deriving DecidableEq, Repr

/-- The C `struct boe_panel` together with the state of what its handles refer to.
`vled` and `iovcc` say whether the regulator is enabled, `reset_gpio` and
`backlight_gpio` hold the logical level last driven on the line. -/
structure boe_panel where
  dsi : mipi_dsi_device
  desc : panel_desc
  vled : Bool
  iovcc : Bool
  reset_gpio : Bool
  backlight_gpio : Bool
  prepared : Bool
  trace : List Effect
  log : List LogMsg
deriving DecidableEq, Repr

/-- What the collaborators answer.  Every function receives the history of calls
made before the one being answered. -/
structure Env where
  /-- return code of `regulator_enable` -/
  regulator_enable : List Effect → Rail → Int
  /-- return code of `regulator_disable` -/
  regulator_disable : List Effect → Rail → Int
  /-- return code of a transport request made under the given `mode_flags` -/
  dsi_transfer : List Effect → Nat → DsiOp → Int
  /-- the `u16` a successful `mipi_dsi_dcs_get_display_brightness` stores -/
  dsi_brightness : List Effect → Nat

/-! ## Constants of `include/drm/drm_mipi_dsi.h` -/

/-- Modelled from the spec: the transport mode flag bits, declared in a header that
is not part of the sources at hand; the values are those of the 5.15 header. -/
def MIPI_DSI_MODE_VIDEO : Nat := 1 <<< 0

/-- Modelled from the spec: burst-mode flag bit, see `MIPI_DSI_MODE_VIDEO`. -/
def MIPI_DSI_MODE_VIDEO_BURST : Nat := 1 <<< 1

/-- Modelled from the spec: HSE flag bit, see `MIPI_DSI_MODE_VIDEO`. -/
def MIPI_DSI_MODE_VIDEO_HSE : Nat := 1 <<< 4

/-- Modelled from the spec: no-EoT-packet flag bit, see `MIPI_DSI_MODE_VIDEO`. -/
def MIPI_DSI_MODE_NO_EOT_PACKET : Nat := 1 <<< 9

/-- Modelled from the spec: the low-power-command flag bit, see `MIPI_DSI_MODE_VIDEO`. -/
def MIPI_DSI_MODE_LPM : Nat := 1 <<< 11

/-- The width of `unsigned long`, the type of `mode_flags`, on AArch64. -/
def BITS_PER_LONG : Nat := 64

/-- The C expression `flags & ~mask` on `unsigned long`. -/
def clear_bits (flags mask : Nat) : Nat :=
  flags &&& ((2 ^ BITS_PER_LONG - 1) ^^^ mask)

/-- The C expression `flags | mask`. -/
def set_bits (flags mask : Nat) : Nat :=
  flags ||| mask

/-! ## The command table -/

/-- The C array `boe_init_cmd`, end marker included. -/
def boe_init_cmd : List panel_init_cmd := [
  _INIT_DELAY_CMD [24],
  _INIT_DCS_CMD [0xB0, 0x05],
  _INIT_DCS_CMD [0xB1, 0xE5],
  _INIT_DCS_CMD [0xB3, 0x52],
  _INIT_DCS_CMD [0xB0, 0x00],
  _INIT_DCS_CMD [0xB3, 0x88],
  _INIT_DCS_CMD [0xB0, 0x04],
  _INIT_DCS_CMD [0xB8, 0x00],
  _INIT_DCS_CMD [0xB0, 0x00],
  _INIT_DCS_CMD [0xB6, 0x03],
  _INIT_DCS_CMD [0xBA, 0x8B],
  _INIT_DCS_CMD [0xBF, 0x1A],
  _INIT_DCS_CMD [0xC0, 0x0F],
  _INIT_DCS_CMD [0xC2, 0x0C],
  _INIT_DCS_CMD [0xC3, 0x02],
  _INIT_DCS_CMD [0xC4, 0x0C],
  _INIT_DCS_CMD [0xC5, 0x02],
  _INIT_DCS_CMD [0xB0, 0x01],
  _INIT_DCS_CMD [0xE0, 0x26],
  _INIT_DCS_CMD [0xE1, 0x26],
  _INIT_DCS_CMD [0xDC, 0x00],
  _INIT_DCS_CMD [0xDD, 0x00],
  _INIT_DCS_CMD [0xCC, 0x26],
  _INIT_DCS_CMD [0xCD, 0x26],
  _INIT_DCS_CMD [0xC8, 0x00],
  _INIT_DCS_CMD [0xC9, 0x00],
  _INIT_DCS_CMD [0xD2, 0x03],
  _INIT_DCS_CMD [0xD3, 0x03],
  _INIT_DCS_CMD [0xE6, 0x04],
  _INIT_DCS_CMD [0xE7, 0x04],
  _INIT_DCS_CMD [0xC4, 0x09],
  _INIT_DCS_CMD [0xC5, 0x09],
  _INIT_DCS_CMD [0xD8, 0x0A],
  _INIT_DCS_CMD [0xD9, 0x0A],
  _INIT_DCS_CMD [0xC2, 0x0B],
  _INIT_DCS_CMD [0xC3, 0x0B],
  _INIT_DCS_CMD [0xD6, 0x0C],
  _INIT_DCS_CMD [0xD7, 0x0C],
  _INIT_DCS_CMD [0xC0, 0x05],
  _INIT_DCS_CMD [0xC1, 0x05],
  _INIT_DCS_CMD [0xD4, 0x06],
  _INIT_DCS_CMD [0xD5, 0x06],
  _INIT_DCS_CMD [0xCA, 0x07],
  _INIT_DCS_CMD [0xCB, 0x07],
  _INIT_DCS_CMD [0xDE, 0x08],
  _INIT_DCS_CMD [0xDF, 0x08],
  _INIT_DCS_CMD [0xB0, 0x02],
  _INIT_DCS_CMD [0xC0, 0x00],
  _INIT_DCS_CMD [0xC1, 0x0D],
  _INIT_DCS_CMD [0xC2, 0x17],
  _INIT_DCS_CMD [0xC3, 0x26],
  _INIT_DCS_CMD [0xC4, 0x31],
  _INIT_DCS_CMD [0xC5, 0x1C],
  _INIT_DCS_CMD [0xC6, 0x2C],
  _INIT_DCS_CMD [0xC7, 0x33],
  _INIT_DCS_CMD [0xC8, 0x31],
  _INIT_DCS_CMD [0xC9, 0x37],
  _INIT_DCS_CMD [0xCA, 0x37],
  _INIT_DCS_CMD [0xCB, 0x37],
  _INIT_DCS_CMD [0xCC, 0x39],
  _INIT_DCS_CMD [0xCD, 0x2E],
  _INIT_DCS_CMD [0xCE, 0x2F],
  _INIT_DCS_CMD [0xCF, 0x2F],
  _INIT_DCS_CMD [0xD0, 0x07],
  _INIT_DCS_CMD [0xD2, 0x00],
  _INIT_DCS_CMD [0xD3, 0x0D],
  _INIT_DCS_CMD [0xD4, 0x17],
  _INIT_DCS_CMD [0xD5, 0x26],
  _INIT_DCS_CMD [0xD6, 0x31],
  _INIT_DCS_CMD [0xD7, 0x3F],
  _INIT_DCS_CMD [0xD8, 0x3F],
  _INIT_DCS_CMD [0xD9, 0x3F],
  _INIT_DCS_CMD [0xDA, 0x3F],
  _INIT_DCS_CMD [0xDB, 0x37],
  _INIT_DCS_CMD [0xDC, 0x37],
  _INIT_DCS_CMD [0xDD, 0x37],
  _INIT_DCS_CMD [0xDE, 0x39],
  _INIT_DCS_CMD [0xDF, 0x2E],
  _INIT_DCS_CMD [0xE0, 0x2F],
  _INIT_DCS_CMD [0xE1, 0x2F],
  _INIT_DCS_CMD [0xE2, 0x07],
  _INIT_DCS_CMD [0xB0, 0x03],
  _INIT_DCS_CMD [0xC8, 0x0B],
  _INIT_DCS_CMD [0xC9, 0x07],
  _INIT_DCS_CMD [0xC3, 0x00],
  _INIT_DCS_CMD [0xE7, 0x00],
  _INIT_DCS_CMD [0xC5, 0x2A],
  _INIT_DCS_CMD [0xDE, 0x2A],
  _INIT_DCS_CMD [0xCA, 0x43],
  _INIT_DCS_CMD [0xC9, 0x07],
  _INIT_DCS_CMD [0xE4, 0xC0],
  _INIT_DCS_CMD [0xE5, 0x0D],
  _INIT_DCS_CMD [0xCB, 0x00],
  _INIT_DCS_CMD [0xB0, 0x06],
  _INIT_DCS_CMD [0xB8, 0xA5],
  _INIT_DCS_CMD [0xC0, 0xA5],
  _INIT_DCS_CMD [0xC7, 0x0F],
  _INIT_DCS_CMD [0xD5, 0x32],
  _INIT_DCS_CMD [0xB8, 0x00],
  _INIT_DCS_CMD [0xC0, 0x00],
  _INIT_DCS_CMD [0xBC, 0x00],
  _INIT_DCS_CMD [0xB0, 0x07],
  _INIT_DCS_CMD [0xB1, 0x00],
  _INIT_DCS_CMD [0xB2, 0x02],
  _INIT_DCS_CMD [0xB3, 0x0F],
  _INIT_DCS_CMD [0xB4, 0x25],
  _INIT_DCS_CMD [0xB5, 0x39],
  _INIT_DCS_CMD [0xB6, 0x4E],
  _INIT_DCS_CMD [0xB7, 0x72],
  _INIT_DCS_CMD [0xB8, 0x97],
  _INIT_DCS_CMD [0xB9, 0xDC],
  _INIT_DCS_CMD [0xBA, 0x22],
  _INIT_DCS_CMD [0xBB, 0xA4],
  _INIT_DCS_CMD [0xBC, 0x2B],
  _INIT_DCS_CMD [0xBD, 0x2F],
  _INIT_DCS_CMD [0xBE, 0xA9],
  _INIT_DCS_CMD [0xBF, 0x25],
  _INIT_DCS_CMD [0xC0, 0x61],
  _INIT_DCS_CMD [0xC1, 0x97],
  _INIT_DCS_CMD [0xC2, 0xB2],
  _INIT_DCS_CMD [0xC3, 0xCD],
  _INIT_DCS_CMD [0xC4, 0xD9],
  _INIT_DCS_CMD [0xC5, 0xE7],
  _INIT_DCS_CMD [0xC6, 0xF4],
  _INIT_DCS_CMD [0xC7, 0xFA],
  _INIT_DCS_CMD [0xC8, 0xFC],
  _INIT_DCS_CMD [0xC9, 0x00],
  _INIT_DCS_CMD [0xCA, 0x00],
  _INIT_DCS_CMD [0xCB, 0x16],
  _INIT_DCS_CMD [0xCC, 0xAF],
  _INIT_DCS_CMD [0xCD, 0xFF],
  _INIT_DCS_CMD [0xCE, 0xFF],
  _INIT_DCS_CMD [0xB0, 0x08],
  _INIT_DCS_CMD [0xB1, 0x04],
  _INIT_DCS_CMD [0xB2, 0x05],
  _INIT_DCS_CMD [0xB3, 0x11],
  _INIT_DCS_CMD [0xB4, 0x24],
  _INIT_DCS_CMD [0xB5, 0x39],
  _INIT_DCS_CMD [0xB6, 0x4F],
  _INIT_DCS_CMD [0xB7, 0x72],
  _INIT_DCS_CMD [0xB8, 0x98],
  _INIT_DCS_CMD [0xB9, 0xDC],
  _INIT_DCS_CMD [0xBA, 0x23],
  _INIT_DCS_CMD [0xBB, 0xA6],
  _INIT_DCS_CMD [0xBC, 0x2C],
  _INIT_DCS_CMD [0xBD, 0x30],
  _INIT_DCS_CMD [0xBE, 0xAA],
  _INIT_DCS_CMD [0xBF, 0x26],
  _INIT_DCS_CMD [0xC0, 0x62],
  _INIT_DCS_CMD [0xC1, 0x9B],
  _INIT_DCS_CMD [0xC2, 0xB5],
  _INIT_DCS_CMD [0xC3, 0xCF],
  _INIT_DCS_CMD [0xC4, 0xDB],
  _INIT_DCS_CMD [0xC5, 0xE8],
  _INIT_DCS_CMD [0xC6, 0xF5],
  _INIT_DCS_CMD [0xC7, 0xFA],
  _INIT_DCS_CMD [0xC8, 0xFC],
  _INIT_DCS_CMD [0xC9, 0x00],
  _INIT_DCS_CMD [0xCA, 0x00],
  _INIT_DCS_CMD [0xCB, 0x16],
  _INIT_DCS_CMD [0xCC, 0xAF],
  _INIT_DCS_CMD [0xCD, 0xFF],
  _INIT_DCS_CMD [0xCE, 0xFF],
  _INIT_DCS_CMD [0xB0, 0x09],
  _INIT_DCS_CMD [0xB1, 0x04],
  _INIT_DCS_CMD [0xB2, 0x02],
  _INIT_DCS_CMD [0xB3, 0x16],
  _INIT_DCS_CMD [0xB4, 0x24],
  _INIT_DCS_CMD [0xB5, 0x3B],
  _INIT_DCS_CMD [0xB6, 0x4F],
  _INIT_DCS_CMD [0xB7, 0x73],
  _INIT_DCS_CMD [0xB8, 0x99],
  _INIT_DCS_CMD [0xB9, 0xE0],
  _INIT_DCS_CMD [0xBA, 0x26],
  _INIT_DCS_CMD [0xBB, 0xAD],
  _INIT_DCS_CMD [0xBC, 0x36],
  _INIT_DCS_CMD [0xBD, 0x3A],
  _INIT_DCS_CMD [0xBE, 0xAE],
  _INIT_DCS_CMD [0xBF, 0x2A],
  _INIT_DCS_CMD [0xC0, 0x66],
  _INIT_DCS_CMD [0xC1, 0x9E],
  _INIT_DCS_CMD [0xC2, 0xB8],
  _INIT_DCS_CMD [0xC3, 0xD1],
  _INIT_DCS_CMD [0xC4, 0xDD],
  _INIT_DCS_CMD [0xC5, 0xE9],
  _INIT_DCS_CMD [0xC6, 0xF6],
  _INIT_DCS_CMD [0xC7, 0xFA],
  _INIT_DCS_CMD [0xC8, 0xFC],
  _INIT_DCS_CMD [0xC9, 0x00],
  _INIT_DCS_CMD [0xCA, 0x00],
  _INIT_DCS_CMD [0xCB, 0x16],
  _INIT_DCS_CMD [0xCC, 0xAF],
  _INIT_DCS_CMD [0xCD, 0xFF],
  _INIT_DCS_CMD [0xCE, 0xFF],
  _INIT_DCS_CMD [0xB0, 0x0A],
  _INIT_DCS_CMD [0xB1, 0x00],
  _INIT_DCS_CMD [0xB2, 0x02],
  _INIT_DCS_CMD [0xB3, 0x0F],
  _INIT_DCS_CMD [0xB4, 0x25],
  _INIT_DCS_CMD [0xB5, 0x39],
  _INIT_DCS_CMD [0xB6, 0x4E],
  _INIT_DCS_CMD [0xB7, 0x72],
  _INIT_DCS_CMD [0xB8, 0x97],
  _INIT_DCS_CMD [0xB9, 0xDC],
  _INIT_DCS_CMD [0xBA, 0x22],
  _INIT_DCS_CMD [0xBB, 0xA4],
  _INIT_DCS_CMD [0xBC, 0x2B],
  _INIT_DCS_CMD [0xBD, 0x2F],
  _INIT_DCS_CMD [0xBE, 0xA9],
  _INIT_DCS_CMD [0xBF, 0x25],
  _INIT_DCS_CMD [0xC0, 0x61],
  _INIT_DCS_CMD [0xC1, 0x97],
  _INIT_DCS_CMD [0xC2, 0xB2],
  _INIT_DCS_CMD [0xC3, 0xCD],
  _INIT_DCS_CMD [0xC4, 0xD9],
  _INIT_DCS_CMD [0xC5, 0xE7],
  _INIT_DCS_CMD [0xC6, 0xF4],
  _INIT_DCS_CMD [0xC7, 0xFA],
  _INIT_DCS_CMD [0xC8, 0xFC],
  _INIT_DCS_CMD [0xC9, 0x00],
  _INIT_DCS_CMD [0xCA, 0x00],
  _INIT_DCS_CMD [0xCB, 0x16],
  _INIT_DCS_CMD [0xCC, 0xAF],
  _INIT_DCS_CMD [0xCD, 0xFF],
  _INIT_DCS_CMD [0xCE, 0xFF],
  _INIT_DCS_CMD [0xB0, 0x0B],
  _INIT_DCS_CMD [0xB1, 0x04],
  _INIT_DCS_CMD [0xB2, 0x05],
  _INIT_DCS_CMD [0xB3, 0x11],
  _INIT_DCS_CMD [0xB4, 0x24],
  _INIT_DCS_CMD [0xB5, 0x39],
  _INIT_DCS_CMD [0xB6, 0x4F],
  _INIT_DCS_CMD [0xB7, 0x72],
  _INIT_DCS_CMD [0xB8, 0x98],
  _INIT_DCS_CMD [0xB9, 0xDC],
  _INIT_DCS_CMD [0xBA, 0x23],
  _INIT_DCS_CMD [0xBB, 0xA6],
  _INIT_DCS_CMD [0xBC, 0x2C],
  _INIT_DCS_CMD [0xBD, 0x30],
  _INIT_DCS_CMD [0xBE, 0xAA],
  _INIT_DCS_CMD [0xBF, 0x26],
  _INIT_DCS_CMD [0xC0, 0x62],
  _INIT_DCS_CMD [0xC1, 0x9B],
  _INIT_DCS_CMD [0xC2, 0xB5],
  _INIT_DCS_CMD [0xC3, 0xCF],
  _INIT_DCS_CMD [0xC4, 0xDB],
  _INIT_DCS_CMD [0xC5, 0xE8],
  _INIT_DCS_CMD [0xC6, 0xF5],
  _INIT_DCS_CMD [0xC7, 0xFA],
  _INIT_DCS_CMD [0xC8, 0xFC],
  _INIT_DCS_CMD [0xC9, 0x00],
  _INIT_DCS_CMD [0xCA, 0x00],
  _INIT_DCS_CMD [0xCB, 0x16],
  _INIT_DCS_CMD [0xCC, 0xAF],
  _INIT_DCS_CMD [0xCD, 0xFF],
  _INIT_DCS_CMD [0xCE, 0xFF],
  _INIT_DCS_CMD [0xB0, 0x0C],
  _INIT_DCS_CMD [0xB1, 0x04],
  _INIT_DCS_CMD [0xB2, 0x02],
  _INIT_DCS_CMD [0xB3, 0x16],
  _INIT_DCS_CMD [0xB4, 0x24],
  _INIT_DCS_CMD [0xB5, 0x3B],
  _INIT_DCS_CMD [0xB6, 0x4F],
  _INIT_DCS_CMD [0xB7, 0x73],
  _INIT_DCS_CMD [0xB8, 0x99],
  _INIT_DCS_CMD [0xB9, 0xE0],
  _INIT_DCS_CMD [0xBA, 0x26],
  _INIT_DCS_CMD [0xBB, 0xAD],
  _INIT_DCS_CMD [0xBC, 0x36],
  _INIT_DCS_CMD [0xBD, 0x3A],
  _INIT_DCS_CMD [0xBE, 0xAE],
  _INIT_DCS_CMD [0xBF, 0x2A],
  _INIT_DCS_CMD [0xC0, 0x66],
  _INIT_DCS_CMD [0xC1, 0x9E],
  _INIT_DCS_CMD [0xC2, 0xB8],
  _INIT_DCS_CMD [0xC3, 0xD1],
  _INIT_DCS_CMD [0xC4, 0xDD],
  _INIT_DCS_CMD [0xC5, 0xE9],
  _INIT_DCS_CMD [0xC6, 0xF6],
  _INIT_DCS_CMD [0xC7, 0xFA],
  _INIT_DCS_CMD [0xC8, 0xFC],
  _INIT_DCS_CMD [0xC9, 0x00],
  _INIT_DCS_CMD [0xCA, 0x00],
  _INIT_DCS_CMD [0xCB, 0x16],
  _INIT_DCS_CMD [0xCC, 0xAF],
  _INIT_DCS_CMD [0xCD, 0xFF],
  _INIT_DCS_CMD [0xCE, 0xFF],
  _INIT_DCS_CMD [0xB0, 0x00],
  _INIT_DCS_CMD [0xB3, 0x08],
  _INIT_DCS_CMD [0xB0, 0x04],
  _INIT_DCS_CMD [0xB8, 0x68],
  _INIT_DELAY_CMD [150],
  panel_init_cmd.zero
]

/-- The C object `boe_nt51021_10_desc`. -/
def boe_nt51021_10_desc : panel_desc :=
  { bpc := 8
    width_mm := 135
    height_mm := 217
    lanes := 4
    mode_flags := MIPI_DSI_MODE_VIDEO ||| MIPI_DSI_MODE_VIDEO_BURST |||
      MIPI_DSI_MODE_VIDEO_HSE ||| MIPI_DSI_MODE_NO_EOT_PACKET ||| MIPI_DSI_MODE_LPM
    init_cmds := some boe_init_cmd
    discharge_on_disable := true }

/-! ## Collaborators -/

/-- Modelled from the spec: output line control, `set(bool)`, no failure mode.
The call is recorded and the line takes the level. -/
def gpiod_set_value (line : Line) (value : Bool) (boe : boe_panel) : boe_panel :=
  match line with
  | Line.reset_gpio =>
    { boe with reset_gpio := value,
               trace := boe.trace ++ [Effect.gpiod_set_value Line.reset_gpio value] }
  | Line.backlight_gpio =>
    { boe with backlight_gpio := value,
               trace := boe.trace ++ [Effect.gpiod_set_value Line.backlight_gpio value] }

/-- Kernel delay `usleep_range(min, max)`: a blocking sleep, recorded with its bounds. -/
def usleep_range (min max : Nat) (boe : boe_panel) : boe_panel :=
  { boe with trace := boe.trace ++ [Effect.usleep_range min max] }

/-- Kernel delay `msleep(msecs)`: a blocking sleep, recorded with its duration. -/
def msleep (msecs : Nat) (boe : boe_panel) : boe_panel :=
  { boe with trace := boe.trace ++ [Effect.msleep msecs] }

/-- Kernel log call `dev_err`: appends the diagnostic to the log. -/
def dev_err (msg : LogMsg) (boe : boe_panel) : boe_panel :=
  { boe with log := boe.log ++ [msg] }

/-- The state with the rail switched to `enabled`. -/
def set_rail (rail : Rail) (enabled : Bool) (boe : boe_panel) : boe_panel :=
  match rail with
  | Rail.vled => { boe with vled := enabled }
  | Rail.iovcc => { boe with iovcc := enabled }

/-- Modelled from the spec: power rail control, `enable() -> Result<(), Error>`.
The environment supplies the return code; a negative code is a failure and
leaves the rail as it was, any other code enables the rail. -/
def regulator_enable (env : Env) (rail : Rail) (boe : boe_panel) : Int × boe_panel :=
  let ret := env.regulator_enable boe.trace rail
  let boe := { boe with trace := boe.trace ++ [Effect.regulator_enable rail] }
  (ret, if ret < 0 then boe else set_rail rail true boe)

/-- Modelled from the spec: power rail control, `disable()`, best-effort with no
result required.  As in the state model of the specification the rail counts
as disabled after the call; the return code the environment reports is handed
back to the caller, which is free to discard it. -/
def regulator_disable (env : Env) (rail : Rail) (boe : boe_panel) : Int × boe_panel :=
  let ret := env.regulator_disable boe.trace rail
  let boe := { boe with trace := boe.trace ++ [Effect.regulator_disable rail] }
  (ret, set_rail rail false boe)

/-- Modelled from the spec: the transport, one blocking request that may fail.
The request is recorded with the mode flags in force and the environment
supplies its return code. -/
def dsi_request (env : Env) (op : DsiOp) (boe : boe_panel) : Int × boe_panel :=
  let ret := env.dsi_transfer boe.trace boe.dsi.mode_flags op
  (ret, { boe with trace := boe.trace ++ [Effect.dsi boe.dsi.mode_flags op] })

/-- Transport call `mipi_dsi_dcs_write(dsi, cmd, data, len)`; the result is the
`int` the driver stores it in. -/
def mipi_dsi_dcs_write (env : Env) (cmd : Byte) (payload : List Byte)
    (boe : boe_panel) : Int × boe_panel :=
  dsi_request env (DsiOp.dcs_write cmd payload) boe

/-- Transport call `mipi_dsi_dcs_set_display_off(dsi)`. -/
def mipi_dsi_dcs_set_display_off (env : Env) (boe : boe_panel) : Int × boe_panel :=
  dsi_request env DsiOp.dcs_set_display_off boe

/-- Transport call `mipi_dsi_dcs_enter_sleep_mode(dsi)`. -/
def mipi_dsi_dcs_enter_sleep_mode (env : Env) (boe : boe_panel) : Int × boe_panel :=
  dsi_request env DsiOp.dcs_enter_sleep_mode boe

/-- Transport call `mipi_dsi_dcs_set_display_brightness(dsi, brightness)`. -/
def mipi_dsi_dcs_set_display_brightness (env : Env) (brightness : Nat)
    (boe : boe_panel) : Int × boe_panel :=
  dsi_request env (DsiOp.dcs_set_display_brightness brightness) boe

/-- Transport call `mipi_dsi_dcs_get_display_brightness(dsi, &brightness)`: the
return code, the `u16` stored through the pointer, and the new state. -/
def mipi_dsi_dcs_get_display_brightness (env : Env)
    (boe : boe_panel) : Int × Nat × boe_panel :=
  let r := dsi_request env DsiOp.dcs_get_display_brightness boe
  (r.1, env.dsi_brightness boe.trace % 65536, r.2)

/-! ## The command interpreter -/

/-- The `switch (cmd->type)` of `boe_panel_init_dcs_cmd`: the value left in `err`
and the new state.  The enumeration has two members, so the `default` arm of
the C switch has no value to match.  `none` is a read past `cmd->data`. -/
def init_dcs_cmd_switch (env : Env) (cmd : panel_init_cmd)
    (boe : boe_panel) : Option (Int × boe_panel) :=
  match cmd.type with
  | dsi_cmd_type.DELAY_CMD =>
    match cmd.data with
    | [] => none
    | d :: _ => some (0, msleep (char_to_uint d) boe)
  | dsi_cmd_type.INIT_DCS_CMD =>
    match cmd.data with
    | [] => none
    | d :: rest =>
      if cmd.len ≤ 1 then
        some (mipi_dsi_dcs_write env d [] boe)
      else if cmd.len - 1 ≤ rest.length then
        some (mipi_dsi_dcs_write env d (rest.take (cmd.len - 1)) boe)
      else
        none

/-- The `for` loop of `boe_panel_init_dcs_cmd`, entered with `i` the loop counter
and the list the part of the array from `init_cmds[i]` on.  `none` is a read
past the end of the array or past an entry's data. -/
def init_dcs_cmd_loop (env : Env) :
    List panel_init_cmd → Nat → boe_panel → Option (Int × boe_panel)
  | [], _, _ => none
  | cmd :: rest, i, boe =>
    if cmd.len = 0 then
      some (0, boe)
    else
      match init_dcs_cmd_switch env cmd boe with
      | none => none
      | some (err, boe) =>
        if err < 0 then
          some (err, dev_err (LogMsg.failed_to_write_command i) boe)
        else
          init_dcs_cmd_loop env rest (i + 1) boe

/-- The C function `boe_panel_init_dcs_cmd`. -/
def boe_panel_init_dcs_cmd (env : Env) (boe : boe_panel) : Option (Int × boe_panel) :=
  match boe.desc.init_cmds with
  | none => some (0, boe)
  | some init_cmds => init_dcs_cmd_loop env init_cmds 0 boe

/-! ## The sequencer -/

/-- The C function `boe_panel_enter_sleep_mode`. -/
def boe_panel_enter_sleep_mode (env : Env) (boe : boe_panel) : Int × boe_panel :=
  let boe := { boe with
    dsi := { boe.dsi with mode_flags := clear_bits boe.dsi.mode_flags MIPI_DSI_MODE_LPM } }
  let r := mipi_dsi_dcs_set_display_off env boe
  if r.1 < 0 then
    r
  else
    let r := mipi_dsi_dcs_enter_sleep_mode env r.2
    if r.1 < 0 then
      r
    else
      (0, r.2)

/-- The C function `boe_panel_unprepare`. -/
def boe_panel_unprepare (env : Env) (boe : boe_panel) : Int × boe_panel :=
  if !boe.prepared then
    (0, boe)
  else
    let r := boe_panel_enter_sleep_mode env boe
    if r.1 < 0 then
      (r.1, dev_err (LogMsg.failed_to_set_panel_off r.1) r.2)
    else
      let boe := msleep 150 r.2
      let boe :=
        if boe.desc.discharge_on_disable then
          let boe := (regulator_disable env Rail.vled boe).2
          let boe := (regulator_disable env Rail.iovcc boe).2
          let boe := usleep_range 5000 7000 boe
          let boe := gpiod_set_value Line.reset_gpio false boe
          let boe := gpiod_set_value Line.backlight_gpio false boe
          usleep_range 5000 7000 boe
        else
          let boe := gpiod_set_value Line.reset_gpio false boe
          let boe := usleep_range 500 1000 boe
          let boe := (regulator_disable env Rail.vled boe).2
          let boe := (regulator_disable env Rail.iovcc boe).2
          let boe := usleep_range 5000 7000 boe
          let boe := gpiod_set_value Line.backlight_gpio false boe
          usleep_range 500 1000 boe
      (0, { boe with prepared := false })

/-- The code of `boe_panel_prepare` from the label `poweroffiovcc` to its end. -/
def poweroffiovcc (env : Env) (boe : boe_panel) : boe_panel :=
  let boe := (regulator_disable env Rail.iovcc boe).2
  let boe := usleep_range 5000 7000 boe
  let boe := gpiod_set_value Line.backlight_gpio false boe
  gpiod_set_value Line.reset_gpio false boe

/-- The code of `boe_panel_prepare` from the label `poweroff` to its end: it falls
through into `poweroffiovcc`. -/
def poweroff (env : Env) (boe : boe_panel) : boe_panel :=
  let boe := (regulator_disable env Rail.vled boe).2
  poweroffiovcc env boe

/-- The C function `boe_panel_prepare`.  `none` is undefined behaviour inside the
command interpreter. -/
def boe_panel_prepare (env : Env) (boe : boe_panel) : Option (Int × boe_panel) :=
  if boe.prepared then
    some (0, boe)
  else
    let boe := gpiod_set_value Line.reset_gpio false boe
    let boe := usleep_range 1000 1500 boe
    let boe := gpiod_set_value Line.backlight_gpio true boe
    let boe := usleep_range 3000 5000 boe
    let r := regulator_enable env Rail.iovcc boe
    let boe := if r.1 < 0 then gpiod_set_value Line.backlight_gpio false r.2 else r.2
    let r := regulator_enable env Rail.vled boe
    if r.1 < 0 then
      some (r.1, poweroffiovcc env r.2)
    else
      let boe := usleep_range 5000 10000 r.2
      let boe := gpiod_set_value Line.reset_gpio true boe
      let boe := usleep_range 1000 2000 boe
      let boe := gpiod_set_value Line.reset_gpio false boe
      let boe := usleep_range 1000 2000 boe
      let boe := gpiod_set_value Line.reset_gpio true boe
      let boe := usleep_range 6000 10000 boe
      match boe_panel_init_dcs_cmd env boe with
      | none => none
      | some (ret, boe) =>
        if ret < 0 then
          let boe := dev_err (LogMsg.failed_to_init_panel ret) boe
          some (ret, poweroff env boe)
        else
          some (0, { boe with prepared := true })

/-- The C function `boe_panel_enable`. -/
def boe_panel_enable (boe : boe_panel) : Int × boe_panel :=
  (0, msleep 130 boe)

/-! ## The brightness controller -/

/-- The C function `boe_panel_bl_update_status`; `level` is what
`backlight_get_brightness(bl)` returns, stored in a `u16`. -/
def boe_panel_bl_update_status (env : Env) (level : Nat)
    (boe : boe_panel) : Int × boe_panel :=
  let brightness := level % 65536
  let boe := gpiod_set_value Line.backlight_gpio (brightness != 0) boe
  let boe := { boe with
    dsi := { boe.dsi with mode_flags := clear_bits boe.dsi.mode_flags MIPI_DSI_MODE_LPM } }
  let r := mipi_dsi_dcs_set_display_brightness env brightness boe
  if r.1 < 0 then
    r
  else
    let boe := r.2
    (0, { boe with
      dsi := { boe.dsi with mode_flags := set_bits boe.dsi.mode_flags MIPI_DSI_MODE_LPM } })

/-- The C function `boe_panel_bl_get_brightness`. -/
def boe_panel_bl_get_brightness (env : Env) (boe : boe_panel) : Int × boe_panel :=
  let boe := { boe with
    dsi := { boe.dsi with mode_flags := clear_bits boe.dsi.mode_flags MIPI_DSI_MODE_LPM } }
  let r := mipi_dsi_dcs_get_display_brightness env boe
  if r.1 < 0 then
    (r.1, r.2.2)
  else
    let boe := r.2.2
    (Int.ofNat (r.2.1 &&& 0xff), { boe with
      dsi := { boe.dsi with mode_flags := set_bits boe.dsi.mode_flags MIPI_DSI_MODE_LPM } })

/-! ## Bind time and call sequences -/

/-- The state `boe_panel_probe` and `boe_panel_add` leave behind when every
acquisition succeeds: zeroed driver data, the descriptor's lanes and mode
flags copied to the transport handle, both lines driven to 0, and both rails
not yet enabled by this driver. -/
def boe_panel_probe (desc : panel_desc) : boe_panel :=
  let boe : boe_panel :=
    { dsi := { lanes := desc.lanes, mode_flags := desc.mode_flags }
      desc := desc
      vled := false
      iovcc := false
      reset_gpio := true
      backlight_gpio := false
      prepared := false
      trace := []
      log := [] }
  let boe := gpiod_set_value Line.reset_gpio false boe
  gpiod_set_value Line.backlight_gpio false boe

/-- One call made by the display framework or the backlight subsystem. -/
inductive Call where
  | prepare
  | enable
  | unprepare
  | set_brightness (level : Nat)
  | get_brightness
deriving DecidableEq, Repr

/-- The state after one call; `none` is undefined behaviour. -/
def Call.run (env : Env) (boe : boe_panel) : Call → Option boe_panel
  | Call.prepare => (boe_panel_prepare env boe).map Prod.snd
  | Call.enable => some (boe_panel_enable boe).2
  | Call.unprepare => some (boe_panel_unprepare env boe).2
  | Call.set_brightness level => some (boe_panel_bl_update_status env level boe).2
  | Call.get_brightness => some (boe_panel_bl_get_brightness env boe).2

/-- The state after a sequence of calls made one after the other. -/
def run_calls (env : Env) : boe_panel → List Call → Option boe_panel
  | boe, [] => some boe
  | boe, c :: cs =>
    match c.run env boe with
    | none => none
    | some boe => run_calls env boe cs

/-! ## Vocabulary of the statements -/

/-- The transport request a write entry stands for: opcode `data[0]`, payload
`data[1..len)`. -/
def cmd_write_op (cmd : panel_init_cmd) : DsiOp :=
  DsiOp.dcs_write (cmd.data.headD 0) ((cmd.data.drop 1).take (cmd.len - 1))

/-- The one call a table entry stands for under the given mode flags: a sleep of
`data[0]` milliseconds for a delay entry, a transport write for a write entry. -/
def cmd_effect (mode_flags : Nat) (cmd : panel_init_cmd) : Effect :=
  match cmd.type with
  | dsi_cmd_type.DELAY_CMD => Effect.msleep (char_to_uint (cmd.data.headD 0))
  | dsi_cmd_type.INIT_DCS_CMD => Effect.dsi mode_flags (cmd_write_op cmd)

/-- The value `err` takes for a table entry run after the given history: 0 for a
delay entry, the answer of the transport for a write entry. -/
def cmd_err (env : Env) (history : List Effect) (mode_flags : Nat)
    (cmd : panel_init_cmd) : Int :=
  match cmd.type with
  | dsi_cmd_type.DELAY_CMD => 0
  | dsi_cmd_type.INIT_DCS_CMD => env.dsi_transfer history mode_flags (cmd_write_op cmd)

/-- The calls of a successful power-on, from the first reset write to the end of
the reset pulse. -/
def power_on_trace : List Effect :=
  [Effect.gpiod_set_value Line.reset_gpio false,
   Effect.usleep_range 1000 1500,
   Effect.gpiod_set_value Line.backlight_gpio true,
   Effect.usleep_range 3000 5000,
   Effect.regulator_enable Rail.iovcc,
   Effect.regulator_enable Rail.vled,
   Effect.usleep_range 5000 10000,
   Effect.gpiod_set_value Line.reset_gpio true,
   Effect.usleep_range 1000 2000,
   Effect.gpiod_set_value Line.reset_gpio false,
   Effect.usleep_range 1000 2000,
   Effect.gpiod_set_value Line.reset_gpio true,
   Effect.usleep_range 6000 10000]

/-- The calls of the power-down after the 150 ms wait, for each value of
`discharge_on_disable`. -/
def power_down_trace (discharge_on_disable : Bool) : List Effect :=
  if discharge_on_disable then
    [Effect.regulator_disable Rail.vled,
     Effect.regulator_disable Rail.iovcc,
     Effect.usleep_range 5000 7000,
     Effect.gpiod_set_value Line.reset_gpio false,
     Effect.gpiod_set_value Line.backlight_gpio false,
     Effect.usleep_range 5000 7000]
  else
    [Effect.gpiod_set_value Line.reset_gpio false,
     Effect.usleep_range 500 1000,
     Effect.regulator_disable Rail.vled,
     Effect.regulator_disable Rail.iovcc,
     Effect.usleep_range 5000 7000,
     Effect.gpiod_set_value Line.backlight_gpio false,
     Effect.usleep_range 500 1000]

/-- The code the environment gives the `regulator_enable(boe->iovcc)` of a
`boe_panel_prepare` entered in state `boe`. -/
def prepare_iovcc_ret (env : Env) (boe : boe_panel) : Int :=
  env.regulator_enable
    (boe.trace ++
      [Effect.gpiod_set_value Line.reset_gpio false,
       Effect.usleep_range 1000 1500,
       Effect.gpiod_set_value Line.backlight_gpio true,
       Effect.usleep_range 3000 5000])
    Rail.iovcc

/-- The code the environment gives the `regulator_enable(boe->vled)` of a
`boe_panel_prepare` entered in state `boe`, when the enable of `iovcc` before
it succeeded. -/
def prepare_vled_ret (env : Env) (boe : boe_panel) : Int :=
  env.regulator_enable
    (boe.trace ++
      [Effect.gpiod_set_value Line.reset_gpio false,
       Effect.usleep_range 1000 1500,
       Effect.gpiod_set_value Line.backlight_gpio true,
       Effect.usleep_range 3000 5000,
       Effect.regulator_enable Rail.iovcc])
    Rail.vled

/-- The state in which `boe_panel_prepare`, entered in state `boe`, calls the
command interpreter when both rail enables succeeded: both rails on, both
lines high, the power-on calls recorded. -/
def powered_on (boe : boe_panel) : boe_panel :=
  { boe with
    vled := true, iovcc := true, reset_gpio := true, backlight_gpio := true,
    trace := boe.trace ++ power_on_trace }

/-- The entries of a table in front of its first zero-length entry. -/
def entries_before_sentinel (T : List panel_init_cmd) : List panel_init_cmd :=
  T.takeWhile (fun c => c.len != 0)

/-- The calls the command interpreter makes for the descriptor's table when no
write fails: none without a table, else one per entry in front of the end
marker. -/
def init_cmds_effects (mode_flags : Nat) : Option (List panel_init_cmd) → List Effect
  | none => []
  | some T => (entries_before_sentinel T).map (cmd_effect mode_flags)

/-- Validity of the descriptor's table as a C object: a null table is valid; an
array must hold a zero-length entry, and every entry in front of the first one
must point to at least `len` bytes. -/
def init_cmds_wellformed : Option (List panel_init_cmd) → Bool
  | none => true
  | some T =>
    T.any (fun c => c.len == 0) &&
      (entries_before_sentinel T).all (fun c => decide (c.len ≤ c.data.length))

/-- The mode flags with which `boe_panel_unprepare` talks to the panel. -/
def unprepare_mode_flags (boe : boe_panel) : Nat :=
  clear_bits boe.dsi.mode_flags MIPI_DSI_MODE_LPM

/-- The code the environment gives the "display off" write of a
`boe_panel_unprepare` entered in state `boe`. -/
def unprepare_display_off_ret (env : Env) (boe : boe_panel) : Int :=
  env.dsi_transfer boe.trace (unprepare_mode_flags boe) DsiOp.dcs_set_display_off

/-- The code the environment gives the "enter sleep mode" write of a
`boe_panel_unprepare` entered in state `boe`, when the write before it succeeded. -/
def unprepare_sleep_ret (env : Env) (boe : boe_panel) : Int :=
  env.dsi_transfer
    (boe.trace ++ [Effect.dsi (unprepare_mode_flags boe) DsiOp.dcs_set_display_off])
    (unprepare_mode_flags boe) DsiOp.dcs_enter_sleep_mode

/-- The PanelState invariant of the specification: a prepared panel has both rails
enabled and the reset line asserted, an unprepared one has both rails disabled
and the reset line deasserted. -/
def panel_invariant (boe : boe_panel) : Prop :=
  (boe.prepared = true → boe.vled = true ∧ boe.iovcc = true ∧ boe.reset_gpio = true) ∧
  (boe.prepared = false → boe.vled = false ∧ boe.iovcc = false ∧ boe.reset_gpio = false)

/-- Whether a call is a rail disable. -/
def Effect.is_rail_disable : Effect → Bool
  | Effect.regulator_disable _ => true
  | _ => false

/-- Whether a trace breaks the rollback ordering: the backlight-enable line is
driven low at a point where no rail has been disabled yet, and a rail disable
follows later. -/
def backlight_off_before_rail_disable : List Effect → Bool
  | [] => false
  | Effect.regulator_disable _ :: _ => false
  | Effect.gpiod_set_value Line.backlight_gpio false :: rest =>
    rest.any Effect.is_rail_disable
  | _ :: rest => backlight_off_before_rail_disable rest

/-- The mode flags with the low-power-command bit cleared: the flags with which
the shutdown writes and the brightness requests are issued. -/
def lpm_cleared (boe : boe_panel) : Nat :=
  clear_bits boe.dsi.mode_flags MIPI_DSI_MODE_LPM

/-- The mode flags a successful brightness call leaves behind: the
low-power-command bit cleared and then set again. -/
def lpm_restored (boe : boe_panel) : Nat :=
  set_bits (lpm_cleared boe) MIPI_DSI_MODE_LPM

/-- The code the environment gives the "set display brightness" write of a
`boe_panel_bl_update_status` called with `level` in state `boe`. -/
def bl_write_ret (env : Env) (level : Nat) (boe : boe_panel) : Int :=
  env.dsi_transfer
    (boe.trace ++ [Effect.gpiod_set_value Line.backlight_gpio (level % 65536 != 0)])
    (lpm_cleared boe) (DsiOp.dcs_set_display_brightness (level % 65536))

/-- The code the environment gives the "get display brightness" read of a
`boe_panel_bl_get_brightness` called in state `boe`. -/
def bl_read_ret (env : Env) (boe : boe_panel) : Int :=
  env.dsi_transfer boe.trace (lpm_cleared boe) DsiOp.dcs_get_display_brightness

/-- The brightness carried by the latest "set display brightness" request of a
history, 0 when there is none. -/
def last_written_brightness : List Effect → Nat
  | [] => 0
  | Effect.dsi _ (DsiOp.dcs_set_display_brightness b) :: rest =>
    if rest.any (fun e =>
        match e with
        | Effect.dsi _ (DsiOp.dcs_set_display_brightness _) => true
        | _ => false)
    then last_written_brightness rest else b
  | _ :: rest => last_written_brightness rest

/-- The number of `mipi_dsi_dcs_write` requests in a trace. -/
def dsi_write_count : List Effect → Nat
  | [] => 0
  | Effect.dsi _ (DsiOp.dcs_write _ _) :: rest => dsi_write_count rest + 1
  | _ :: rest => dsi_write_count rest

/-- The milliseconds spent in the `msleep` calls of a trace. -/
def total_msleep : List Effect → Nat
  | [] => 0
  | Effect.msleep msecs :: rest => msecs + total_msleep rest
  | _ :: rest => total_msleep rest

/-- The calls of a trace that are not waits: rail and line operations and
transport requests, in order. -/
def without_waits (tr : List Effect) : List Effect :=
  tr.filter (fun e =>
    match e with
    | Effect.usleep_range _ _ => false
    | Effect.msleep _ => false
    | _ => true)

/-- The calls a `boe_panel_unprepare` entered in state `boe` makes after its two
shutdown writes and the 150 ms wait. -/
def power_down_steps (env : Env) (boe : boe_panel) : List Effect :=
  (boe_panel_unprepare env boe).2.trace.drop (boe.trace.length + 3)

/-- The number of write entries of a list of table entries. -/
def table_write_count : List panel_init_cmd → Nat
  | [] => 0
  | c :: rest =>
    match c.type with
    | dsi_cmd_type.INIT_DCS_CMD => table_write_count rest + 1
    | dsi_cmd_type.DELAY_CMD => table_write_count rest

/-- The milliseconds named by the delay entries of a list of table entries. -/
def table_msleep : List panel_init_cmd → Nat
  | [] => 0
  | c :: rest =>
    match c.type with
    | dsi_cmd_type.INIT_DCS_CMD => table_msleep rest
    | dsi_cmd_type.DELAY_CMD => char_to_uint (c.data.headD 0) + table_msleep rest

/-- The state `s` is reached from `boe` with the transport handle untouched and
with every transport request made on the way issued under the mode flags of
`boe`. -/
def keeps_mode_flags (boe s : boe_panel) : Prop :=
  s.dsi = boe.dsi ∧
  ∃ tr, s.trace = boe.trace ++ tr ∧
    ∀ f op, Effect.dsi f op ∈ tr → f = boe.dsi.mode_flags

/-! ## Concrete environments and inputs -/

/-- An environment in which every call succeeds with code 0 and the brightness
register reads 0. -/
def env_ok : Env :=
  { regulator_enable := fun _ _ => 0
    regulator_disable := fun _ _ => 0
    dsi_transfer := fun _ _ _ => 0
    dsi_brightness := fun _ => 0 }

/-- An environment in which the transport rejects, with `-EIO`, the write of
opcode `0xB3` with parameter `0x52` (entry 3 of `boe_init_cmd`), and every
other call succeeds. -/
def env_write_fails : Env :=
  { env_ok with
    dsi_transfer := fun _ _ op =>
      if op = DsiOp.dcs_write 0xB3 [0x52] then -5 else 0 }

/-- An environment in which enabling the interface rail `iovcc` fails with
`-EINVAL` and every other call succeeds. -/
def env_iovcc_fails : Env :=
  { env_ok with
    regulator_enable := fun _ rail => if rail = Rail.iovcc then -22 else 0 }

/-- An environment in which enabling the panel rail `vled` fails with `-EINVAL`
and every other call succeeds. -/
def env_vled_fails : Env :=
  { env_ok with
    regulator_enable := fun _ rail => if rail = Rail.vled then -22 else 0 }

/-- An environment in which enabling either rail fails with `-EINVAL` and every
other call succeeds. -/
def env_rails_fail : Env :=
  { env_ok with regulator_enable := fun _ _ => -22 }

/-- An environment in which every rail disable reports `-EIO` and every other
call succeeds. -/
def env_disable_fails : Env :=
  { env_ok with regulator_disable := fun _ _ => -5 }

/-- A short table: a delay, a two-byte write, an opcode-only write, the end marker,
and one entry behind the end marker. -/
def short_cmds : List panel_init_cmd :=
  [_INIT_DELAY_CMD [24], _INIT_DCS_CMD [0xB0, 0x05], _INIT_DCS_CMD [0xB3, 0x52],
   _INIT_DCS_CMD [0x11], panel_init_cmd.zero, _INIT_DCS_CMD [0x29]]

/-- The panel descriptor with the short table in place of `boe_init_cmd`. -/
def short_desc : panel_desc :=
  { boe_nt51021_10_desc with init_cmds := some short_cmds }

/-- An environment whose transport echoes the brightness: every call succeeds and
a brightness read returns the value of the latest brightness write. -/
def env_echo : Env :=
  { env_ok with dsi_brightness := last_written_brightness }

/-- An environment in which the transport rejects "display off" with `-EIO` and
every other call succeeds. -/
def env_display_off_fails : Env :=
  { env_ok with
    dsi_transfer := fun _ _ op => if op = DsiOp.dcs_set_display_off then -5 else 0 }

/-- An environment in which the transport rejects "enter sleep mode" with `-EIO`
and every other call succeeds. -/
def env_sleep_fails : Env :=
  { env_ok with
    dsi_transfer := fun _ _ op => if op = DsiOp.dcs_enter_sleep_mode then -5 else 0 }

/-- An environment in which the transport rejects every brightness write with
`-EIO` and every other call succeeds. -/
def env_brightness_fails : Env :=
  { env_ok with
    dsi_transfer := fun _ _ op =>
      match op with
      | DsiOp.dcs_set_display_brightness _ => -5
      | _ => 0 }

/-- The panel as a successful `boe_panel_prepare` from the bind-time state leaves
it, without the calls of the command table in its trace. -/
def prepared_panel (desc : panel_desc) : boe_panel :=
  { powered_on (boe_panel_probe desc) with prepared := true }

/-- The panel descriptor with `discharge_on_disable` switched off. -/
def no_discharge_desc : panel_desc :=
  { boe_nt51021_10_desc with discharge_on_disable := false }

end BoeNt51021

namespace BoeNt51021

/-! ## Lemmas on the command interpreter -/

theorem init_dcs_cmd_switch_eq (env : Env) (cmd : panel_init_cmd) (boe : boe_panel)
    (hlen : cmd.len ≠ 0) (hdata : cmd.len ≤ cmd.data.length) :
    init_dcs_cmd_switch env cmd boe =
      some (cmd_err env boe.trace boe.dsi.mode_flags cmd,
        { boe with trace := boe.trace ++ [cmd_effect boe.dsi.mode_flags cmd] }) := by
  obtain ⟨type, len, data⟩ := cmd
  simp only at hlen hdata
  cases data with
  | nil => simp at hdata; exact absurd hdata hlen
  | cons d rest =>
    have hrest : len - 1 ≤ rest.length := by
      simp only [List.length_cons] at hdata
      omega
    cases type with
    | DELAY_CMD =>
      simp [init_dcs_cmd_switch, cmd_err, cmd_effect, msleep]
    | INIT_DCS_CMD =>
      by_cases h1 : len ≤ 1
      · have h0 : len - 1 = 0 := by omega
        simp [init_dcs_cmd_switch, cmd_err, cmd_effect, cmd_write_op, mipi_dsi_dcs_write,
          dsi_request, h1, h0]
      · simp [init_dcs_cmd_switch, cmd_err, cmd_effect, cmd_write_op, mipi_dsi_dcs_write,
          dsi_request, h1, hrest]

theorem init_dcs_cmd_loop_skip (env : Env) (rest : List panel_init_cmd) :
    ∀ (pre : List panel_init_cmd) (i : Nat) (boe : boe_panel),
      (∀ c ∈ pre, c.len ≠ 0 ∧ c.len ≤ c.data.length) →
      (∀ p1 e p2, pre = p1 ++ e :: p2 →
        0 ≤ cmd_err env (boe.trace ++ p1.map (cmd_effect boe.dsi.mode_flags))
          boe.dsi.mode_flags e) →
      init_dcs_cmd_loop env (pre ++ rest) i boe =
        init_dcs_cmd_loop env rest (i + pre.length)
          { boe with trace := boe.trace ++ pre.map (cmd_effect boe.dsi.mode_flags) } := by
  intro pre
  induction pre with
  | nil => intro i boe _ _; simp
  | cons c pre ih =>
    intro i boe hpre hok
    have hc := hpre c (List.mem_cons_self _ _)
    have h0 : 0 ≤ cmd_err env boe.trace boe.dsi.mode_flags c := by
      have := hok [] c pre rfl
      simpa using this
    have hstep : init_dcs_cmd_loop env (c :: pre ++ rest) i boe =
        init_dcs_cmd_loop env (pre ++ rest) (i + 1)
          { boe with trace := boe.trace ++ [cmd_effect boe.dsi.mode_flags c] } := by
      simp only [List.cons_append, init_dcs_cmd_loop, hc.1, if_false,
        init_dcs_cmd_switch_eq env c boe hc.1 hc.2, not_lt.mpr h0]
      rfl
    rw [hstep, ih (i + 1) _ (fun e he => hpre e (List.mem_cons_of_mem _ he))]
    · simp [Nat.add_assoc, Nat.add_comm 1]
    · intro p1 e p2 hp
      have := hok (c :: p1) e p2 (by simp [hp])
      simpa using this

theorem init_dcs_cmd_switch_frame (env : Env) (cmd : panel_init_cmd) (boe final : boe_panel)
    (err : Int) (h : init_dcs_cmd_switch env cmd boe = some (err, final)) :
    ∃ x, final = { boe with trace := boe.trace ++ [x] } := by
  obtain ⟨type, len, data⟩ := cmd
  cases data with
  | nil => cases type <;> simp [init_dcs_cmd_switch] at h
  | cons d rest =>
    cases type with
    | DELAY_CMD =>
      simp only [init_dcs_cmd_switch, msleep, Option.some.injEq, Prod.mk.injEq] at h
      exact ⟨_, h.2.symm⟩
    | INIT_DCS_CMD =>
      simp only [init_dcs_cmd_switch, mipi_dsi_dcs_write, dsi_request] at h
      split_ifs at h
      · simp only [Option.some.injEq, Prod.mk.injEq] at h
        exact ⟨_, h.2.symm⟩
      · simp only [Option.some.injEq, Prod.mk.injEq] at h
        exact ⟨_, h.2.symm⟩

theorem init_dcs_cmd_loop_frame (env : Env) :
    ∀ (T : List panel_init_cmd) (i : Nat) (boe final : boe_panel) (ret : Int),
      init_dcs_cmd_loop env T i boe = some (ret, final) →
      ∃ tr lg, final = { boe with trace := boe.trace ++ tr, log := boe.log ++ lg } := by
  intro T
  induction T with
  | nil => intro i boe final ret h; simp [init_dcs_cmd_loop] at h
  | cons c T ih =>
    intro i boe final ret h
    simp only [init_dcs_cmd_loop] at h
    split_ifs at h with hlen
    · simp only [Option.some.injEq, Prod.mk.injEq] at h
      exact ⟨[], [], by simp [← h.2]⟩
    · cases hsw : init_dcs_cmd_switch env c boe with
      | none => simp [hsw] at h
      | some r =>
        obtain ⟨err, mid⟩ := r
        obtain ⟨x, hx⟩ := init_dcs_cmd_switch_frame env c boe mid err hsw
        simp only [hsw] at h
        split_ifs at h with herr
        · simp only [Option.some.injEq, Prod.mk.injEq] at h
          exact ⟨[x], [LogMsg.failed_to_write_command i], by simp [← h.2, hx, dev_err]⟩
        · obtain ⟨tr, lg, hfin⟩ := ih (i + 1) mid final ret h
          exact ⟨x :: tr, lg, by simp [hfin, hx]⟩

theorem init_dcs_cmd_frame (env : Env) (boe final : boe_panel) (ret : Int)
    (h : boe_panel_init_dcs_cmd env boe = some (ret, final)) :
    ∃ tr lg, final = { boe with trace := boe.trace ++ tr, log := boe.log ++ lg } := by
  unfold boe_panel_init_dcs_cmd at h
  cases hT : boe.desc.init_cmds with
  | none =>
    simp only [hT, Option.some.injEq, Prod.mk.injEq] at h
    exact ⟨[], [], by simp [← h.2]⟩
  | some T =>
    simp only [hT] at h
    exact init_dcs_cmd_loop_frame env T 0 boe final ret h

theorem init_dcs_cmd_loop_run (env : Env) (s : panel_init_cmd) (post : List panel_init_cmd)
    (hs : s.len = 0) :
    ∀ (pre : List panel_init_cmd) (i : Nat) (boe : boe_panel),
      (∀ c ∈ pre, c.len ≠ 0 ∧ c.len ≤ c.data.length) →
      ∃ ret n lg,
        init_dcs_cmd_loop env (pre ++ s :: post) i boe =
          some (ret, { boe with
            trace := boe.trace ++ (pre.take n).map (cmd_effect boe.dsi.mode_flags),
            log := boe.log ++ lg }) ∧
        n ≤ pre.length ∧ (0 ≤ ret → ret = 0 ∧ n = pre.length ∧ lg = []) := by
  intro pre
  induction pre with
  | nil =>
    intro i boe _
    exact ⟨0, 0, [], by simp [init_dcs_cmd_loop, hs], le_refl _, fun _ => ⟨rfl, rfl, rfl⟩⟩
  | cons c pre ih =>
    intro i boe hpre
    have hc := hpre c (List.mem_cons_self _ _)
    by_cases herr : cmd_err env boe.trace boe.dsi.mode_flags c < 0
    · refine ⟨cmd_err env boe.trace boe.dsi.mode_flags c, 1,
        [LogMsg.failed_to_write_command i], ?_, by simp, fun h => absurd herr (not_lt.mpr h)⟩
      simp [init_dcs_cmd_loop, hc.1, init_dcs_cmd_switch_eq env c boe hc.1 hc.2, herr, dev_err]
    · obtain ⟨ret, n, lg, hrun, hn, hret⟩ :=
        ih (i + 1) { boe with trace := boe.trace ++ [cmd_effect boe.dsi.mode_flags c] }
          (fun e he => hpre e (List.mem_cons_of_mem _ he))
      refine ⟨ret, n + 1, lg, ?_, by simpa using hn, fun h => ?_⟩
      · simp only [List.cons_append, init_dcs_cmd_loop, hc.1, if_false,
          init_dcs_cmd_switch_eq env c boe hc.1 hc.2, herr]
        rw [List.append_eq, hrun]
        simp
      · obtain ⟨h1, h2, h3⟩ := hret h
        exact ⟨h1, by simp [h2], h3⟩

theorem split_at_index {α : Type} :
    ∀ (T : List α) (i : Nat) (c : α), T[i]? = some c →
      T = T.take i ++ c :: T.drop (i + 1) ∧ (T.take i).length = i := by
  intro T
  induction T with
  | nil => intro i c h; simp at h
  | cons a T ih =>
    intro i c h
    cases i with
    | zero =>
      simp only [List.getElem?_cons_zero, Option.some.injEq] at h
      simp [h]
    | succ i =>
      simp only [List.getElem?_cons_succ] at h
      obtain ⟨h1, h2⟩ := ih i c h
      refine ⟨?_, by simp [h2]⟩
      simp only [List.take_succ_cons, List.drop_succ_cons, List.cons_append]
      rw [← h1]

theorem take_of_split {α : Type} (p1 : List α) (e : α) (r : List α) :
    (p1 ++ e :: r)[p1.length]? = some e ∧ (p1 ++ e :: r).take p1.length = p1 := by
  induction p1 with
  | nil => simp
  | cons a p1 ih => simpa using ih

/-! ## The command interpreter: sentinel, failure and dispatch -/

/-- C7. Sentinel property of `boe_panel_init_dcs_cmd`: for a table whose entries
`pre` have non-zero length (and point to that many bytes) and are followed by
an entry `s` of length zero, on a transport on which every write succeeds, the
interpreter returns 0 and appends to the trace exactly the calls of the entries
of `pre`, one per entry and in table order; `pre.length` is the index of the
first zero-length entry.  The returned code and the trace are the same for
every other end marker and every other content behind it. -/
theorem init_dcs_cmd_sentinel (env : Env) (boe : boe_panel)
    (pre : List panel_init_cmd) (s : panel_init_cmd) (post : List panel_init_cmd)
    (htable : boe.desc.init_cmds = some (pre ++ s :: post))
    (hpre : ∀ c ∈ pre, c.len ≠ 0 ∧ c.len ≤ c.data.length)
    (hs : s.len = 0)
    (hwrite : ∀ history mode_flags op, 0 ≤ env.dsi_transfer history mode_flags op) :
    boe_panel_init_dcs_cmd env boe =
        some (0, { boe with
          trace := boe.trace ++ pre.map (cmd_effect boe.dsi.mode_flags) }) ∧
      ∀ (s2 : panel_init_cmd) (post2 : List panel_init_cmd), s2.len = 0 →
        (boe_panel_init_dcs_cmd env
            { boe with desc := { boe.desc with init_cmds := some (pre ++ s2 :: post2) } }).map
            (fun r => (r.1, r.2.trace)) =
          (boe_panel_init_dcs_cmd env boe).map (fun r => (r.1, r.2.trace)) := by
  have hok : ∀ (b : boe_panel) (p1 : List panel_init_cmd) (e : panel_init_cmd)
      (p2 : List panel_init_cmd), pre = p1 ++ e :: p2 →
      0 ≤ cmd_err env (b.trace ++ p1.map (cmd_effect b.dsi.mode_flags)) b.dsi.mode_flags e := by
    intro b p1 e p2 _
    unfold cmd_err
    cases e.type
    · exact hwrite _ _ _
    · exact le_refl _
  have hrun : ∀ (b : boe_panel) (s2 : panel_init_cmd) (post2 : List panel_init_cmd),
      s2.len = 0 → b.desc.init_cmds = some (pre ++ s2 :: post2) →
      boe_panel_init_dcs_cmd env b =
        some (0, { b with trace := b.trace ++ pre.map (cmd_effect b.dsi.mode_flags) }) := by
    intro b s2 post2 hs2 hb
    unfold boe_panel_init_dcs_cmd
    rw [hb]
    simp only
    rw [init_dcs_cmd_loop_skip env (s2 :: post2) pre 0 b hpre (hok b)]
    simp [init_dcs_cmd_loop, hs2]
  refine ⟨hrun boe s post hs htable, ?_⟩
  intro s2 post2 hs2
  rw [hrun boe s post hs htable, hrun _ s2 post2 hs2 rfl]
  rfl

set_option maxRecDepth 100000 in
/-- Witness of C7 on `boe_init_cmd`: its 292 entries before the end marker. -/
theorem init_dcs_cmd_sentinel_witness :
    boe_panel_init_dcs_cmd env_ok (boe_panel_probe boe_nt51021_10_desc) =
      some (0, { boe_panel_probe boe_nt51021_10_desc with
        trace := (boe_panel_probe boe_nt51021_10_desc).trace ++
          (boe_init_cmd.take 292).map
            (cmd_effect (boe_panel_probe boe_nt51021_10_desc).dsi.mode_flags) }) :=
  (init_dcs_cmd_sentinel env_ok (boe_panel_probe boe_nt51021_10_desc)
    (boe_init_cmd.take 292) panel_init_cmd.zero [] rfl (by decide) rfl
    (fun _ _ _ => le_refl _)).1

/-- C8. First failing write of `boe_panel_init_dcs_cmd`: let entry `i` of the table
be a write entry `c`, let the entries `0..i` all lie before the end marker (and
point to `len` bytes), let no write of an entry before `i` fail and let the
transport answer the write of entry `i` with a negative code.  Then the
interpreter returns that code unchanged and names index `i` in its diagnostic,
the trace is extended by the calls of the entries `0..i-1` in order followed by
the failing write exactly once, and nothing follows it: no call is made for
any entry behind `i`. -/
theorem init_dcs_cmd_first_failure (env : Env) (boe : boe_panel)
    (T : List panel_init_cmd) (i : Nat) (c : panel_init_cmd)
    (htable : boe.desc.init_cmds = some T)
    (hi : T[i]? = some c)
    (hbefore : ∀ j e, j ≤ i → T[j]? = some e → e.len ≠ 0 ∧ e.len ≤ e.data.length)
    (hok : ∀ j e, j < i → T[j]? = some e → e.type = dsi_cmd_type.INIT_DCS_CMD →
      0 ≤ env.dsi_transfer
        (boe.trace ++ (T.take j).map (cmd_effect boe.dsi.mode_flags))
        boe.dsi.mode_flags (cmd_write_op e))
    (hwrite : c.type = dsi_cmd_type.INIT_DCS_CMD)
    (hfail : env.dsi_transfer
        (boe.trace ++ (T.take i).map (cmd_effect boe.dsi.mode_flags))
        boe.dsi.mode_flags (cmd_write_op c) < 0) :
    boe_panel_init_dcs_cmd env boe =
      some (env.dsi_transfer
          (boe.trace ++ (T.take i).map (cmd_effect boe.dsi.mode_flags))
          boe.dsi.mode_flags (cmd_write_op c),
        { boe with
          trace := boe.trace ++ (T.take i).map (cmd_effect boe.dsi.mode_flags) ++
            [Effect.dsi boe.dsi.mode_flags (cmd_write_op c)],
          log := boe.log ++ [LogMsg.failed_to_write_command i] }) := by
  obtain ⟨hsplit, hlen⟩ := split_at_index T i c hi
  have hc := hbefore i c (le_refl _) hi
  have hpre : ∀ e ∈ T.take i, e.len ≠ 0 ∧ e.len ≤ e.data.length := by
    intro e he
    obtain ⟨p1, p2, hp⟩ := List.append_of_mem he
    have hT : T = p1 ++ e :: (p2 ++ c :: T.drop (i + 1)) :=
      calc T = T.take i ++ c :: T.drop (i + 1) := hsplit
        _ = p1 ++ e :: (p2 ++ c :: T.drop (i + 1)) := by rw [hp]; simp
    have hj : p1.length ≤ i := by
      have := congrArg List.length hp
      simp at this
      omega
    have hget := (take_of_split p1 e (p2 ++ c :: T.drop (i + 1))).1
    rw [← hT] at hget
    exact hbefore p1.length e hj hget
  have hgo : ∀ p1 e p2, T.take i = p1 ++ e :: p2 →
      0 ≤ cmd_err env (boe.trace ++ p1.map (cmd_effect boe.dsi.mode_flags))
        boe.dsi.mode_flags e := by
    intro p1 e p2 hp
    have hT : T = p1 ++ e :: (p2 ++ c :: T.drop (i + 1)) :=
      calc T = T.take i ++ c :: T.drop (i + 1) := hsplit
        _ = p1 ++ e :: (p2 ++ c :: T.drop (i + 1)) := by rw [hp]; simp
    have hj : p1.length < i := by
      have := congrArg List.length hp
      simp at this
      omega
    have hsp := take_of_split p1 e (p2 ++ c :: T.drop (i + 1))
    rw [← hT] at hsp
    unfold cmd_err
    cases hty : e.type with
    | DELAY_CMD => exact le_refl _
    | INIT_DCS_CMD =>
      have := hok p1.length e hj hsp.1 hty
      rw [hsp.2] at this
      exact this
  have herr : cmd_err env (boe.trace ++ (T.take i).map (cmd_effect boe.dsi.mode_flags))
      boe.dsi.mode_flags c =
      env.dsi_transfer (boe.trace ++ (T.take i).map (cmd_effect boe.dsi.mode_flags))
        boe.dsi.mode_flags (cmd_write_op c) := by
    simp [cmd_err, hwrite]
  have heff : cmd_effect boe.dsi.mode_flags c = Effect.dsi boe.dsi.mode_flags (cmd_write_op c) := by
    simp [cmd_effect, hwrite]
  unfold boe_panel_init_dcs_cmd
  rw [htable]
  simp only
  conv_lhs => rw [hsplit]
  rw [init_dcs_cmd_loop_skip env (c :: T.drop (i + 1)) (T.take i) 0 boe hpre hgo]
  simp only [init_dcs_cmd_loop, hc.1, if_false]
  rw [init_dcs_cmd_switch_eq env c _ hc.1 hc.2]
  simp only [herr, hfail, if_true, heff, dev_err, hlen, Nat.zero_add]

set_option maxRecDepth 100000 in
/-- Witness of C8: on `boe_init_cmd` the write of entry 3 is rejected. -/
theorem init_dcs_cmd_first_failure_witness :
    boe_panel_init_dcs_cmd env_write_fails (boe_panel_probe boe_nt51021_10_desc) =
      some (-5, { boe_panel_probe boe_nt51021_10_desc with
        trace := (boe_panel_probe boe_nt51021_10_desc).trace ++
          [Effect.msleep 24,
           Effect.dsi 2579 (DsiOp.dcs_write 0xB0 [0x05]),
           Effect.dsi 2579 (DsiOp.dcs_write 0xB1 [0xE5])] ++
          [Effect.dsi 2579 (DsiOp.dcs_write 0xB3 [0x52])],
        log := [LogMsg.failed_to_write_command 3] }) :=
  init_dcs_cmd_first_failure env_write_fails (boe_panel_probe boe_nt51021_10_desc)
    boe_init_cmd 3 (_INIT_DCS_CMD [0xB3, 0x52]) rfl rfl
    (by
      intro j e hj he
      have h4 : j = 0 ∨ j = 1 ∨ j = 2 ∨ j = 3 := by omega
      rcases h4 with h | h | h | h <;> subst h <;>
        simp [boe_init_cmd] at he <;> subst he <;> decide)
    (by
      intro j e hj he _
      have h3 : j = 0 ∨ j = 1 ∨ j = 2 := by omega
      rcases h3 with h | h | h <;> subst h <;>
        simp [boe_init_cmd] at he <;> subst he <;> decide)
    rfl (by decide)

theorem init_dcs_cmd_at_entry (env : Env) (boe : boe_panel)
    (pre : List panel_init_cmd) (c : panel_init_cmd) (rest : List panel_init_cmd)
    (htable : boe.desc.init_cmds = some (pre ++ c :: rest))
    (hpre : ∀ e ∈ pre, e.len ≠ 0 ∧ e.len ≤ e.data.length)
    (hc : c.len ≠ 0 ∧ c.len ≤ c.data.length)
    (hreach : ∀ j e, pre[j]? = some e → e.type = dsi_cmd_type.INIT_DCS_CMD →
      0 ≤ env.dsi_transfer
        (boe.trace ++ (pre.take j).map (cmd_effect boe.dsi.mode_flags))
        boe.dsi.mode_flags (cmd_write_op e)) :
    boe_panel_init_dcs_cmd env boe =
      if cmd_err env (boe.trace ++ pre.map (cmd_effect boe.dsi.mode_flags))
          boe.dsi.mode_flags c < 0 then
        some (cmd_err env (boe.trace ++ pre.map (cmd_effect boe.dsi.mode_flags))
            boe.dsi.mode_flags c,
          { boe with
            trace := boe.trace ++ pre.map (cmd_effect boe.dsi.mode_flags) ++
              [cmd_effect boe.dsi.mode_flags c],
            log := boe.log ++ [LogMsg.failed_to_write_command pre.length] })
      else
        init_dcs_cmd_loop env rest (pre.length + 1)
          { boe with
            trace := boe.trace ++ pre.map (cmd_effect boe.dsi.mode_flags) ++
              [cmd_effect boe.dsi.mode_flags c] } := by
  have hgo : ∀ p1 e p2, pre = p1 ++ e :: p2 →
      0 ≤ cmd_err env (boe.trace ++ p1.map (cmd_effect boe.dsi.mode_flags))
        boe.dsi.mode_flags e := by
    intro p1 e p2 hp
    have hsp := take_of_split p1 e p2
    rw [← hp] at hsp
    unfold cmd_err
    cases hty : e.type with
    | DELAY_CMD => exact le_refl _
    | INIT_DCS_CMD =>
      have := hreach p1.length e hsp.1 hty
      rw [hsp.2] at this
      exact this
  unfold boe_panel_init_dcs_cmd
  rw [htable]
  simp only
  rw [init_dcs_cmd_loop_skip env (c :: rest) pre 0 boe hpre hgo]
  simp only [init_dcs_cmd_loop, hc.1, if_false]
  rw [init_dcs_cmd_switch_eq env c _ hc.1 hc.2]
  simp only [Nat.zero_add, dev_err]

/-- C9. Dispatch of `boe_panel_init_dcs_cmd`, under any behaviour of the transport.
Let `c` be an entry before the end marker that the interpreter reaches: no
write of an entry `pre` in front of it fails.  If `c` is a write entry with
bytes `d :: rest`, the interpreter makes, right after the calls of `pre`,
exactly one transport write with opcode `d` and payload the next `len - 1`
bytes (no byte when `len` is 1) and no sleep: if the transport answers it with
a negative code the interpreter stops there and returns that code, otherwise
it goes on with the entries behind `c`.  If `c` is a delay entry it makes
exactly one `msleep` of `d` milliseconds, no transport request, and goes on.
In both cases the interpreter returns, and what follows the call of `c` in the
trace is one call per later entry run, in table order. -/
theorem init_dcs_cmd_dispatch (env : Env) (boe : boe_panel)
    (pre : List panel_init_cmd) (c : panel_init_cmd) (mid : List panel_init_cmd)
    (s : panel_init_cmd) (post : List panel_init_cmd)
    (htable : boe.desc.init_cmds = some (pre ++ c :: (mid ++ s :: post)))
    (hvalid : ∀ e ∈ pre ++ c :: mid, e.len ≠ 0 ∧ e.len ≤ e.data.length)
    (hs : s.len = 0)
    (hreach : ∀ j e, pre[j]? = some e → e.type = dsi_cmd_type.INIT_DCS_CMD →
      0 ≤ env.dsi_transfer
        (boe.trace ++ (pre.take j).map (cmd_effect boe.dsi.mode_flags))
        boe.dsi.mode_flags (cmd_write_op e)) :
    (c.type = dsi_cmd_type.INIT_DCS_CMD → ∀ d rest, c.data = d :: rest →
      (c.len = 1 → rest.take (c.len - 1) = []) ∧
      boe_panel_init_dcs_cmd env boe =
        (if env.dsi_transfer (boe.trace ++ pre.map (cmd_effect boe.dsi.mode_flags))
            boe.dsi.mode_flags (DsiOp.dcs_write d (rest.take (c.len - 1))) < 0 then
          some (env.dsi_transfer (boe.trace ++ pre.map (cmd_effect boe.dsi.mode_flags))
              boe.dsi.mode_flags (DsiOp.dcs_write d (rest.take (c.len - 1))),
            { boe with
              trace := boe.trace ++ pre.map (cmd_effect boe.dsi.mode_flags) ++
                [Effect.dsi boe.dsi.mode_flags (DsiOp.dcs_write d (rest.take (c.len - 1)))],
              log := boe.log ++ [LogMsg.failed_to_write_command pre.length] })
        else
          init_dcs_cmd_loop env (mid ++ s :: post) (pre.length + 1)
            { boe with
              trace := boe.trace ++ pre.map (cmd_effect boe.dsi.mode_flags) ++
                [Effect.dsi boe.dsi.mode_flags
                  (DsiOp.dcs_write d (rest.take (c.len - 1)))] }) ∧
      ∃ ret final n,
        boe_panel_init_dcs_cmd env boe = some (ret, final) ∧
        n ≤ mid.length ∧ (0 ≤ ret → ret = 0 ∧ n = mid.length) ∧
        final.trace = boe.trace ++ pre.map (cmd_effect boe.dsi.mode_flags) ++
          [Effect.dsi boe.dsi.mode_flags (DsiOp.dcs_write d (rest.take (c.len - 1)))] ++
          (mid.take n).map (cmd_effect boe.dsi.mode_flags)) ∧
    (c.type = dsi_cmd_type.DELAY_CMD → ∀ d rest, c.data = d :: rest →
      boe_panel_init_dcs_cmd env boe =
        init_dcs_cmd_loop env (mid ++ s :: post) (pre.length + 1)
          { boe with
            trace := boe.trace ++ pre.map (cmd_effect boe.dsi.mode_flags) ++
              [Effect.msleep d.val] } ∧
      ∃ ret final n,
        boe_panel_init_dcs_cmd env boe = some (ret, final) ∧
        n ≤ mid.length ∧ (0 ≤ ret → ret = 0 ∧ n = mid.length) ∧
        final.trace = boe.trace ++ pre.map (cmd_effect boe.dsi.mode_flags) ++
          [Effect.msleep d.val] ++
          (mid.take n).map (cmd_effect boe.dsi.mode_flags)) := by
  have hpre : ∀ e ∈ pre, e.len ≠ 0 ∧ e.len ≤ e.data.length :=
    fun e he => hvalid e (List.mem_append.mpr (Or.inl he))
  have hc : c.len ≠ 0 ∧ c.len ≤ c.data.length :=
    hvalid c (List.mem_append.mpr (Or.inr (List.mem_cons_self _ _)))
  have hmid : ∀ e ∈ mid, e.len ≠ 0 ∧ e.len ≤ e.data.length :=
    fun e he => hvalid e (List.mem_append.mpr (Or.inr (List.mem_cons_of_mem _ he)))
  have hat := init_dcs_cmd_at_entry env boe pre c (mid ++ s :: post) htable hpre hc hreach
  have hrest : ∀ b : boe_panel, ∃ ret n lg,
      init_dcs_cmd_loop env (mid ++ s :: post) (pre.length + 1) b =
        some (ret, { b with
          trace := b.trace ++ (mid.take n).map (cmd_effect b.dsi.mode_flags),
          log := b.log ++ lg }) ∧
      n ≤ mid.length ∧ (0 ≤ ret → ret = 0 ∧ n = mid.length ∧ lg = []) :=
    fun b => init_dcs_cmd_loop_run env s post hs mid (pre.length + 1) b hmid
  constructor
  · intro hty d rest hdata
    have heff : cmd_effect boe.dsi.mode_flags c =
        Effect.dsi boe.dsi.mode_flags (DsiOp.dcs_write d (rest.take (c.len - 1))) := by
      simp [cmd_effect, cmd_write_op, hty, hdata]
    have herr : ∀ history, cmd_err env history boe.dsi.mode_flags c =
        env.dsi_transfer history boe.dsi.mode_flags
          (DsiOp.dcs_write d (rest.take (c.len - 1))) := by
      intro history
      simp [cmd_err, cmd_write_op, hty, hdata]
    rw [heff, herr] at hat
    refine ⟨fun h1 => by simp [h1], hat, ?_⟩
    by_cases hfail : env.dsi_transfer
        (boe.trace ++ pre.map (cmd_effect boe.dsi.mode_flags))
        boe.dsi.mode_flags (DsiOp.dcs_write d (rest.take (c.len - 1))) < 0
    · rw [if_pos hfail] at hat
      exact ⟨_, _, 0, hat, Nat.zero_le _, fun h => absurd hfail (not_lt.mpr h), by simp⟩
    · rw [if_neg hfail] at hat
      obtain ⟨ret, n, lg, hrun, hn, hret⟩ := hrest { boe with
        trace := boe.trace ++ pre.map (cmd_effect boe.dsi.mode_flags) ++
          [Effect.dsi boe.dsi.mode_flags (DsiOp.dcs_write d (rest.take (c.len - 1)))] }
      exact ⟨ret, _, n, hat.trans hrun, hn, fun h => ⟨(hret h).1, (hret h).2.1⟩, rfl⟩
  · intro hty d rest hdata
    have heff : cmd_effect boe.dsi.mode_flags c = Effect.msleep d.val := by
      simp [cmd_effect, hty, hdata, char_to_uint]
    have herr : ∀ history, cmd_err env history boe.dsi.mode_flags c = 0 := by
      intro history
      simp [cmd_err, hty]
    rw [heff, herr, if_neg (by decide)] at hat
    refine ⟨hat, ?_⟩
    obtain ⟨ret, n, lg, hrun, hn, hret⟩ := hrest { boe with
      trace := boe.trace ++ pre.map (cmd_effect boe.dsi.mode_flags) ++
        [Effect.msleep d.val] }
    exact ⟨ret, _, n, hat.trans hrun, hn, fun h => ⟨(hret h).1, (hret h).2.1⟩, rfl⟩

/-- Witness of C9: the short table on a transport that rejects its third entry,
the write of opcode `0xB3` with parameter `0x52`, reached after the delay and
the first write. -/
theorem init_dcs_cmd_dispatch_witness :
    boe_panel_init_dcs_cmd env_write_fails (boe_panel_probe short_desc) =
      some (-5, { boe_panel_probe short_desc with
        trace := (boe_panel_probe short_desc).trace ++
          [Effect.msleep 24, Effect.dsi 2579 (DsiOp.dcs_write 0xB0 [0x05])] ++
          [Effect.dsi 2579 (DsiOp.dcs_write 0xB3 [0x52])],
        log := [LogMsg.failed_to_write_command 2] }) :=
  ((init_dcs_cmd_dispatch env_write_fails (boe_panel_probe short_desc)
    [_INIT_DELAY_CMD [24], _INIT_DCS_CMD [0xB0, 0x05]] (_INIT_DCS_CMD [0xB3, 0x52])
    [_INIT_DCS_CMD [0x11]] panel_init_cmd.zero [_INIT_DCS_CMD [0x29]] rfl (by decide) rfl
    (by
      intro j e he _
      rcases j with _ | _ | j
      · simp at he
        subst he
        decide
      · simp at he
        subst he
        decide
      · simp at he)).1 rfl 0xB3 [0x52] rfl).2.1

/-! ## Lemmas on `boe_panel_prepare` -/

theorem entries_before_sentinel_cons (a : panel_init_cmd) (T : List panel_init_cmd) :
    entries_before_sentinel (a :: T) =
      if a.len = 0 then [] else a :: entries_before_sentinel T := by
  unfold entries_before_sentinel
  by_cases ha : a.len = 0
  · rw [List.takeWhile_cons_of_neg (by simp [ha])]
    simp [ha]
  · rw [List.takeWhile_cons_of_pos (by simp [ha])]
    simp [ha]

theorem init_cmds_wellformed_split (T : List panel_init_cmd)
    (h : init_cmds_wellformed (some T) = true) :
    ∃ s post, T = entries_before_sentinel T ++ s :: post ∧ s.len = 0 ∧
      ∀ c ∈ entries_before_sentinel T, c.len ≠ 0 ∧ c.len ≤ c.data.length := by
  induction T with
  | nil => simp [init_cmds_wellformed] at h
  | cons a T ih =>
    by_cases ha : a.len = 0
    · refine ⟨a, T, ?_, ha, ?_⟩
      · simp [entries_before_sentinel_cons, ha]
      · simp [entries_before_sentinel_cons, ha]
    · have hcons : entries_before_sentinel (a :: T) = a :: entries_before_sentinel T := by
        simp [entries_before_sentinel_cons, ha]
      simp only [init_cmds_wellformed, hcons, List.any_cons, List.all_cons, Bool.and_eq_true,
        Bool.or_eq_true, beq_iff_eq, decide_eq_true_eq] at h
      have hT : init_cmds_wellformed (some T) = true := by
        simp only [init_cmds_wellformed, Bool.and_eq_true]
        rcases h.1 with h1 | h1
        · exact absurd h1 ha
        · exact ⟨h1, h.2.2⟩
      obtain ⟨s, post, hsplit, hs, hall⟩ := ih hT
      refine ⟨s, post, ?_, hs, ?_⟩
      · rw [hcons, List.cons_append, ← hsplit]
      · intro c hc
        rw [hcons] at hc
        rcases List.mem_cons.mp hc with h1 | h1
        · subst h1; exact ⟨ha, h.2.1⟩
        · exact hall c h1

theorem init_dcs_cmd_all_ok (env : Env) (boe : boe_panel)
    (htable : init_cmds_wellformed boe.desc.init_cmds = true)
    (hwrite : ∀ history mode_flags op, 0 ≤ env.dsi_transfer history mode_flags op) :
    boe_panel_init_dcs_cmd env boe =
      some (0, { boe with
        trace := boe.trace ++ init_cmds_effects boe.dsi.mode_flags boe.desc.init_cmds }) := by
  cases hT : boe.desc.init_cmds with
  | none => simp [boe_panel_init_dcs_cmd, hT, init_cmds_effects]
  | some T =>
    rw [hT] at htable
    obtain ⟨s, post, hsplit, hs, hall⟩ := init_cmds_wellformed_split T htable
    have hok : ∀ (p1 : List panel_init_cmd) (e : panel_init_cmd) (p2 : List panel_init_cmd),
        entries_before_sentinel T = p1 ++ e :: p2 →
        0 ≤ cmd_err env (boe.trace ++ p1.map (cmd_effect boe.dsi.mode_flags))
          boe.dsi.mode_flags e := by
      intro p1 e p2 _
      unfold cmd_err
      cases e.type
      · exact hwrite _ _ _
      · exact le_refl _
    unfold boe_panel_init_dcs_cmd
    rw [hT]
    simp only
    conv_lhs => rw [hsplit]
    rw [init_dcs_cmd_loop_skip env (s :: post) (entries_before_sentinel T) 0 boe hall hok]
    simp [init_dcs_cmd_loop, hs, init_cmds_effects]

theorem prepare_rails_ok (env : Env) (boe : boe_panel)
    (hunprep : boe.prepared = false)
    (hiovcc : 0 ≤ prepare_iovcc_ret env boe)
    (hvled : 0 ≤ prepare_vled_ret env boe) :
    boe_panel_prepare env boe =
      match boe_panel_init_dcs_cmd env (powered_on boe) with
      | none => none
      | some (ret, boe) =>
        if ret < 0 then
          some (ret, poweroff env (dev_err (LogMsg.failed_to_init_panel ret) boe))
        else
          some (0, { boe with prepared := true }) := by
  unfold prepare_iovcc_ret at hiovcc
  unfold prepare_vled_ret at hvled
  simp [boe_panel_prepare, hunprep, regulator_enable, gpiod_set_value, usleep_range,
    set_rail, not_lt.mpr hiovcc, not_lt.mpr hvled, powered_on, power_on_trace]

end BoeNt51021

namespace BoeNt51021

/-! ## The sequencer: `boe_panel_prepare` -/

/-- C1. Successful power-on: for an unprepared panel with a valid table, if both
rail enables succeed and every transport write succeeds, `boe_panel_prepare`
returns 0 with `prepared` set, both rails on and both lines high, and the trace
is extended by exactly the thirteen power-on calls (reset 0, wait 1000-1500,
backlight 1, wait 3000-5000, enable iovcc, enable vled, wait 5000-10000,
reset 1, wait 1000-2000, reset 0, wait 1000-2000, reset 1, wait 6000-10000)
followed by the calls of the command table and nothing else. -/
theorem prepare_success (env : Env) (boe : boe_panel)
    (hunprep : boe.prepared = false)
    (htable : init_cmds_wellformed boe.desc.init_cmds = true)
    (hiovcc : 0 ≤ prepare_iovcc_ret env boe)
    (hvled : 0 ≤ prepare_vled_ret env boe)
    (hwrite : ∀ history mode_flags op, 0 ≤ env.dsi_transfer history mode_flags op) :
    boe_panel_prepare env boe =
      some (0, { boe with
        vled := true, iovcc := true, reset_gpio := true, backlight_gpio := true,
        prepared := true,
        trace := boe.trace ++
          [Effect.gpiod_set_value Line.reset_gpio false,
           Effect.usleep_range 1000 1500,
           Effect.gpiod_set_value Line.backlight_gpio true,
           Effect.usleep_range 3000 5000,
           Effect.regulator_enable Rail.iovcc,
           Effect.regulator_enable Rail.vled,
           Effect.usleep_range 5000 10000,
           Effect.gpiod_set_value Line.reset_gpio true,
           Effect.usleep_range 1000 2000,
           Effect.gpiod_set_value Line.reset_gpio false,
           Effect.usleep_range 1000 2000,
           Effect.gpiod_set_value Line.reset_gpio true,
           Effect.usleep_range 6000 10000] ++
          init_cmds_effects boe.dsi.mode_flags boe.desc.init_cmds }) := by
  rw [prepare_rails_ok env boe hunprep hiovcc hvled,
    init_dcs_cmd_all_ok env (powered_on boe) htable hwrite]
  simp [powered_on, power_on_trace]

set_option maxRecDepth 100000 in
/-- Witness of C1: the bind-time state of the panel in an environment where every
call succeeds. -/
theorem prepare_success_witness :
    (boe_panel_prepare env_ok (boe_panel_probe boe_nt51021_10_desc)).map
        (fun r => (r.1, r.2.prepared)) = some (0, true) :=
  congrArg (Option.map (fun r => (r.1, r.2.prepared)))
    (prepare_success env_ok (boe_panel_probe boe_nt51021_10_desc) rfl (by decide)
      (le_refl _) (le_refl _) (fun _ _ _ => le_refl _))

/-- C3. Interpreter failure in `boe_panel_prepare`: for an unprepared panel on
which both rail enables succeed, if the command interpreter, run in the
powered-on state, returns the negative code `err` in state `mid`, then
`boe_panel_prepare` returns `err` unchanged; after the interpreter's calls the
trace continues with exactly the rollback (disable vled, disable iovcc, wait
5000-7000, backlight 0, reset 0); `prepared` stays false, and both rails and
both lines end off. -/
theorem prepare_interpreter_failure (env : Env) (boe mid : boe_panel) (err : Int)
    (hunprep : boe.prepared = false)
    (hiovcc : 0 ≤ prepare_iovcc_ret env boe)
    (hvled : 0 ≤ prepare_vled_ret env boe)
    (hinterp : boe_panel_init_dcs_cmd env (powered_on boe) = some (err, mid))
    (herr : err < 0) :
    ∃ final,
      boe_panel_prepare env boe = some (err, final) ∧
      final.trace = mid.trace ++
        [Effect.regulator_disable Rail.vled,
         Effect.regulator_disable Rail.iovcc,
         Effect.usleep_range 5000 7000,
         Effect.gpiod_set_value Line.backlight_gpio false,
         Effect.gpiod_set_value Line.reset_gpio false] ∧
      (∃ tr, mid.trace = boe.trace ++ power_on_trace ++ tr) ∧
      final.prepared = false ∧
      final.vled = false ∧ final.iovcc = false ∧
      final.backlight_gpio = false ∧ final.reset_gpio = false := by
  obtain ⟨tr, lg, hmid⟩ := init_dcs_cmd_frame env (powered_on boe) mid err hinterp
  refine ⟨poweroff env (dev_err (LogMsg.failed_to_init_panel err) mid), ?_, ?_, ?_, ?_⟩
  · rw [prepare_rails_ok env boe hunprep hiovcc hvled, hinterp]
    simp [herr]
  · simp [poweroff, poweroffiovcc, regulator_disable, set_rail, usleep_range,
      gpiod_set_value, dev_err]
  · exact ⟨tr, by simp [hmid, powered_on]⟩
  · simp [poweroff, poweroffiovcc, regulator_disable, set_rail, usleep_range,
      gpiod_set_value, dev_err, hmid, powered_on, hunprep]

/-- Witness of C3: the short table on a transport that rejects its third entry. -/
theorem prepare_interpreter_failure_witness :
    ∃ final,
      boe_panel_prepare env_write_fails (boe_panel_probe short_desc) = some (-5, final) ∧
      final.prepared = false ∧ final.vled = false ∧ final.iovcc = false :=
  have h := prepare_interpreter_failure env_write_fails (boe_panel_probe short_desc)
    { powered_on (boe_panel_probe short_desc) with
      trace := (powered_on (boe_panel_probe short_desc)).trace ++
        [Effect.msleep 24,
         Effect.dsi 2579 (DsiOp.dcs_write 0xB0 [0x05]),
         Effect.dsi 2579 (DsiOp.dcs_write 0xB3 [0x52])],
      log := [LogMsg.failed_to_write_command 2] }
    (-5) rfl (by decide) (by decide) (by decide) (by decide)
  h.elim fun final hf => ⟨final, hf.1, hf.2.2.2.1, hf.2.2.2.2.1, hf.2.2.2.2.2.1⟩

/-- C4. Panel-rail failure in `boe_panel_prepare`: for an unprepared panel, if the
enable of `iovcc` succeeds and the enable of `vled` fails, `boe_panel_prepare`
returns the code of the failed enable; the interface rail ends disabled, the
backlight-enable line and the reset line end low, `prepared` stays false, and
the calls made are exactly: reset 0, wait, backlight 1, wait, enable iovcc,
enable vled, disable iovcc, wait 5000-7000, backlight 0, reset 0.  The reset
line is never driven high and the transport is never used. -/
theorem prepare_vled_failure (env : Env) (boe : boe_panel)
    (hunprep : boe.prepared = false)
    (hiovcc : 0 ≤ prepare_iovcc_ret env boe)
    (hvled : prepare_vled_ret env boe < 0) :
    boe_panel_prepare env boe =
      some (prepare_vled_ret env boe, { boe with
        iovcc := false, backlight_gpio := false, reset_gpio := false,
        prepared := false,
        trace := boe.trace ++
          [Effect.gpiod_set_value Line.reset_gpio false,
           Effect.usleep_range 1000 1500,
           Effect.gpiod_set_value Line.backlight_gpio true,
           Effect.usleep_range 3000 5000,
           Effect.regulator_enable Rail.iovcc,
           Effect.regulator_enable Rail.vled,
           Effect.regulator_disable Rail.iovcc,
           Effect.usleep_range 5000 7000,
           Effect.gpiod_set_value Line.backlight_gpio false,
           Effect.gpiod_set_value Line.reset_gpio false] }) := by
  unfold prepare_iovcc_ret at hiovcc
  have hv := hvled
  unfold prepare_vled_ret at hv ⊢
  simp [boe_panel_prepare, hunprep, regulator_enable, regulator_disable, gpiod_set_value,
    usleep_range, set_rail, not_lt.mpr hiovcc, hv, poweroffiovcc]

/-- Witness of C4: the bind-time state of the panel when enabling `vled` fails. -/
theorem prepare_vled_failure_witness :
    (boe_panel_prepare env_vled_fails (boe_panel_probe boe_nt51021_10_desc)).map
        (fun r => (r.1, r.2.iovcc, r.2.backlight_gpio, r.2.prepared)) =
      some (-22, false, false, false) :=
  congrArg (Option.map (fun r => (r.1, r.2.iovcc, r.2.backlight_gpio, r.2.prepared)))
    (prepare_vled_failure env_vled_fails (boe_panel_probe boe_nt51021_10_desc) rfl
      (by decide) (by decide))

/-! ## The sequencer: `boe_panel_unprepare` -/

/-- C10. Successful power-down: for a prepared panel on which both shutdown writes
succeed, `boe_panel_unprepare` returns 0 and ends with `prepared` false,
whatever the environment reports for the rail disables.  The trace is extended
by the two shutdown writes and the 150 ms wait, and then by exactly: with
`discharge_on_disable`, disable vled, disable iovcc, wait 5000-7000, reset 0,
backlight 0, wait 5000-7000; without it, reset 0, wait 500-1000, disable vled,
disable iovcc, wait 5000-7000, backlight 0, wait 500-1000. -/
theorem unprepare_success (env : Env) (boe : boe_panel)
    (hprep : boe.prepared = true)
    (hoff : 0 ≤ unprepare_display_off_ret env boe)
    (hsleep : 0 ≤ unprepare_sleep_ret env boe) :
    boe_panel_unprepare env boe =
      (0, { boe with
        dsi := { boe.dsi with mode_flags := unprepare_mode_flags boe },
        vled := false, iovcc := false, reset_gpio := false, backlight_gpio := false,
        prepared := false,
        trace := boe.trace ++
          [Effect.dsi (unprepare_mode_flags boe) DsiOp.dcs_set_display_off,
           Effect.dsi (unprepare_mode_flags boe) DsiOp.dcs_enter_sleep_mode,
           Effect.msleep 150] ++
          (if boe.desc.discharge_on_disable then
            [Effect.regulator_disable Rail.vled,
             Effect.regulator_disable Rail.iovcc,
             Effect.usleep_range 5000 7000,
             Effect.gpiod_set_value Line.reset_gpio false,
             Effect.gpiod_set_value Line.backlight_gpio false,
             Effect.usleep_range 5000 7000]
          else
            [Effect.gpiod_set_value Line.reset_gpio false,
             Effect.usleep_range 500 1000,
             Effect.regulator_disable Rail.vled,
             Effect.regulator_disable Rail.iovcc,
             Effect.usleep_range 5000 7000,
             Effect.gpiod_set_value Line.backlight_gpio false,
             Effect.usleep_range 500 1000]) }) := by
  unfold unprepare_display_off_ret at hoff
  unfold unprepare_sleep_ret at hsleep
  unfold unprepare_mode_flags at *
  cases hd : boe.desc.discharge_on_disable <;>
    simp [boe_panel_unprepare, boe_panel_enter_sleep_mode, mipi_dsi_dcs_set_display_off,
      mipi_dsi_dcs_enter_sleep_mode, dsi_request, hprep, not_lt.mpr hoff,
      not_lt.mpr hsleep, msleep, regulator_disable, set_rail, usleep_range,
      gpiod_set_value, hd]

/-- Witness of C10: a prepared panel in an environment where every rail disable
reports an error. -/
theorem unprepare_success_witness :
    (boe_panel_unprepare env_disable_fails
        { powered_on (boe_panel_probe boe_nt51021_10_desc) with prepared := true }).1 = 0 ∧
    (boe_panel_unprepare env_disable_fails
        { powered_on (boe_panel_probe boe_nt51021_10_desc) with prepared := true }).2.prepared
      = false :=
  have h := unprepare_success env_disable_fails
    { powered_on (boe_panel_probe boe_nt51021_10_desc) with prepared := true }
    rfl (by decide) (by decide)
  ⟨congrArg Prod.fst h, congrArg (fun r => r.2.prepared) h⟩

/-! ## The unchecked failure of the interface rail

`boe_panel_prepare` tests the result of `regulator_enable(boe->iovcc)` only to
drive the backlight-enable line low; it neither returns nor jumps to a rollback
label, and the next statement overwrites `ret`.  The three evaluations below run
the code where that enable fails. -/

set_option maxRecDepth 100000 in
/-- C2, evaluated: from the bind-time state, when enabling `iovcc` fails with -22
and every other call succeeds, `boe_panel_prepare` drives the backlight-enable
line low and then goes on: it enables `vled`, runs the reset pulse and the
command table, and returns 0 with `prepared` set while the interface rail is
off. -/
theorem prepare_iovcc_failure_goes_on :
    (boe_panel_prepare env_iovcc_fails (boe_panel_probe boe_nt51021_10_desc)).map
        (fun r => (r.1, r.2.prepared, r.2.iovcc, r.2.vled, (r.2.trace.drop 2).take 14)) =
      some (0, true, false, true,
        [Effect.gpiod_set_value Line.reset_gpio false,
         Effect.usleep_range 1000 1500,
         Effect.gpiod_set_value Line.backlight_gpio true,
         Effect.usleep_range 3000 5000,
         Effect.regulator_enable Rail.iovcc,
         Effect.gpiod_set_value Line.backlight_gpio false,
         Effect.regulator_enable Rail.vled,
         Effect.usleep_range 5000 10000,
         Effect.gpiod_set_value Line.reset_gpio true,
         Effect.usleep_range 1000 2000,
         Effect.gpiod_set_value Line.reset_gpio false,
         Effect.usleep_range 1000 2000,
         Effect.gpiod_set_value Line.reset_gpio true,
         Effect.usleep_range 6000 10000]) := by
  decide

/-- C5, evaluated: from the bind-time state, when enabling either rail fails with
-22, `boe_panel_prepare` returns -22 and its calls are, in order: reset 0,
wait, backlight 1, wait, enable iovcc, backlight 0, enable vled, disable iovcc,
wait, backlight 0, reset 0.  The backlight-enable line is driven low on account
of the first failure before any rail is disabled, and the only rail disabled is
one whose enable failed. -/
theorem prepare_rollback_order_broken :
    (boe_panel_prepare env_rails_fail (boe_panel_probe boe_nt51021_10_desc)).map
        (fun r => (r.1, r.2.trace.drop 2,
          backlight_off_before_rail_disable (r.2.trace.drop 2))) =
      some (-22,
        [Effect.gpiod_set_value Line.reset_gpio false,
         Effect.usleep_range 1000 1500,
         Effect.gpiod_set_value Line.backlight_gpio true,
         Effect.usleep_range 3000 5000,
         Effect.regulator_enable Rail.iovcc,
         Effect.gpiod_set_value Line.backlight_gpio false,
         Effect.regulator_enable Rail.vled,
         Effect.regulator_disable Rail.iovcc,
         Effect.usleep_range 5000 7000,
         Effect.gpiod_set_value Line.backlight_gpio false,
         Effect.gpiod_set_value Line.reset_gpio false],
        true) := by
  decide

set_option maxRecDepth 100000 in
/-- C6, evaluated: the bind-time state satisfies the PanelState invariant, and one
`prepare` call in an environment where enabling `iovcc` fails reaches a state
that breaks it: `prepared` is set while the interface rail is off. -/
theorem panel_invariant_broken :
    panel_invariant (boe_panel_probe boe_nt51021_10_desc) ∧
    ∃ final,
      run_calls env_iovcc_fails (boe_panel_probe boe_nt51021_10_desc) [Call.prepare] =
        some final ∧
      final.prepared = true ∧ final.vled = true ∧ final.iovcc = false ∧
      ¬ panel_invariant final := by
  refine ⟨⟨fun h => absurd h (by decide), fun _ => by decide⟩, ?_⟩
  cases hrun : run_calls env_iovcc_fails (boe_panel_probe boe_nt51021_10_desc) [Call.prepare] with
  | none =>
    have hsome : (run_calls env_iovcc_fails (boe_panel_probe boe_nt51021_10_desc)
        [Call.prepare]).isSome = true := by decide
    rw [hrun] at hsome
    exact absurd hsome (by decide)
  | some final =>
    have hfacts : (run_calls env_iovcc_fails (boe_panel_probe boe_nt51021_10_desc)
        [Call.prepare]).map (fun b => (b.prepared, b.vled, b.iovcc)) =
        some (true, true, false) := by decide
    rw [hrun] at hfacts
    simp only [Option.map_some', Option.some.injEq, Prod.mk.injEq] at hfacts
    refine ⟨final, rfl, hfacts.1, hfacts.2.1, hfacts.2.2, ?_⟩
    intro hinv
    have := (hinv.1 hfacts.1).2.1
    rw [hfacts.2.2] at this
    exact absurd this (by decide)

/-! ## Lemmas on the mode flags -/

theorem clear_bits_lpm (flags : Nat) :
    clear_bits flags MIPI_DSI_MODE_LPM &&& MIPI_DSI_MODE_LPM = 0 := by
  unfold clear_bits
  rw [Nat.land_assoc]
  have h : ((2 ^ BITS_PER_LONG - 1) ^^^ MIPI_DSI_MODE_LPM) &&& MIPI_DSI_MODE_LPM = 0 := by
    decide
  rw [h]
  simp

theorem set_bits_lpm (flags : Nat) :
    set_bits flags MIPI_DSI_MODE_LPM &&& MIPI_DSI_MODE_LPM = MIPI_DSI_MODE_LPM := by
  unfold set_bits
  apply Nat.eq_of_testBit_eq
  intro i
  simp only [Nat.testBit_land, Nat.testBit_lor]
  cases Nat.testBit flags i <;> cases Nat.testBit MIPI_DSI_MODE_LPM i <;> rfl

/-! ## Lemmas on the lifecycle operations -/

theorem unprepare_ok_state (env : Env) (boe : boe_panel)
    (hprep : boe.prepared = true)
    (hoff : 0 ≤ unprepare_display_off_ret env boe)
    (hsleep : 0 ≤ unprepare_sleep_ret env boe) :
    boe_panel_unprepare env boe =
      (0, { boe with
        dsi := { boe.dsi with mode_flags := unprepare_mode_flags boe },
        vled := false, iovcc := false, reset_gpio := false, backlight_gpio := false,
        prepared := false,
        trace := boe.trace ++
          [Effect.dsi (unprepare_mode_flags boe) DsiOp.dcs_set_display_off,
           Effect.dsi (unprepare_mode_flags boe) DsiOp.dcs_enter_sleep_mode,
           Effect.msleep 150] ++
          power_down_trace boe.desc.discharge_on_disable }) := by
  unfold unprepare_display_off_ret at hoff
  unfold unprepare_sleep_ret at hsleep
  unfold unprepare_mode_flags at *
  cases hd : boe.desc.discharge_on_disable <;>
    simp [boe_panel_unprepare, boe_panel_enter_sleep_mode, mipi_dsi_dcs_set_display_off,
      mipi_dsi_dcs_enter_sleep_mode, dsi_request, hprep, not_lt.mpr hoff,
      not_lt.mpr hsleep, msleep, regulator_disable, set_rail, usleep_range,
      gpiod_set_value, hd, power_down_trace]

theorem prepare_ret_prepared (env : Env) (boe mid : boe_panel) (ret : Int)
    (hunprep : boe.prepared = false)
    (h : boe_panel_prepare env boe = some (ret, mid))
    (hret : 0 ≤ ret) :
    mid.prepared = true := by
  unfold boe_panel_prepare at h
  simp only [hunprep, Bool.false_eq_true, if_false] at h
  split_ifs at h with h1 h2 h3
  all_goals first
    | (simp only [Option.some.injEq, Prod.mk.injEq] at h
       omega)
    | (split at h
       · exact absurd h (by simp)
       · split_ifs at h with h4
         · simp only [Option.some.injEq, Prod.mk.injEq] at h
           omega
         · simp only [Option.some.injEq, Prod.mk.injEq] at h
           rw [← h.2])

theorem unprepare_ret_unprepared (env : Env) (boe mid : boe_panel)
    (h : boe_panel_unprepare env boe = (0, mid)) :
    mid.prepared = false := by
  unfold boe_panel_unprepare at h
  cases hp : boe.prepared with
  | false =>
    simp only [hp, Bool.not_false, if_true, Prod.mk.injEq, true_and] at h
    rw [← h, hp]
  | true =>
    simp only [hp, Bool.not_true, Bool.false_eq_true, if_false] at h
    split_ifs at h with h1 <;> first
      | (simp only [Prod.mk.injEq] at h
         omega)
      | (have h2 := congrArg (fun r => r.2.prepared) h
         exact h2.symm)

/-! ## The sequencer: shutdown writes, round trip and idempotence -/

/-- C11. Shutdown writes of `boe_panel_unprepare` on a prepared panel: the
low-power-command bit is cleared in the mode flags under which the writes are
issued, "display off" is written first and "enter sleep mode" second.  If
"display off" fails, "enter sleep mode" is not issued; if either write fails,
`boe_panel_unprepare` returns that error, `prepared` stays set, and nothing
but the mode flags, the trace and the log changes: no wait, no rail disable,
no line write. -/
theorem unprepare_shutdown_failure (env : Env) (boe : boe_panel)
    (hprep : boe.prepared = true) :
    unprepare_mode_flags boe &&& MIPI_DSI_MODE_LPM = 0 ∧
    (unprepare_display_off_ret env boe < 0 →
      boe_panel_unprepare env boe =
        (unprepare_display_off_ret env boe, { boe with
          dsi := { boe.dsi with mode_flags := unprepare_mode_flags boe },
          trace := boe.trace ++
            [Effect.dsi (unprepare_mode_flags boe) DsiOp.dcs_set_display_off],
          log := boe.log ++
            [LogMsg.failed_to_set_panel_off (unprepare_display_off_ret env boe)] })) ∧
    (0 ≤ unprepare_display_off_ret env boe → unprepare_sleep_ret env boe < 0 →
      boe_panel_unprepare env boe =
        (unprepare_sleep_ret env boe, { boe with
          dsi := { boe.dsi with mode_flags := unprepare_mode_flags boe },
          trace := boe.trace ++
            [Effect.dsi (unprepare_mode_flags boe) DsiOp.dcs_set_display_off,
             Effect.dsi (unprepare_mode_flags boe) DsiOp.dcs_enter_sleep_mode],
          log := boe.log ++
            [LogMsg.failed_to_set_panel_off (unprepare_sleep_ret env boe)] })) ∧
    (0 ≤ unprepare_display_off_ret env boe → 0 ≤ unprepare_sleep_ret env boe →
      (boe_panel_unprepare env boe).2.trace =
        boe.trace ++
          [Effect.dsi (unprepare_mode_flags boe) DsiOp.dcs_set_display_off,
           Effect.dsi (unprepare_mode_flags boe) DsiOp.dcs_enter_sleep_mode,
           Effect.msleep 150] ++
          power_down_trace boe.desc.discharge_on_disable) := by
  refine ⟨clear_bits_lpm _, ?_, ?_, ?_⟩
  · intro hoff
    have h := hoff
    unfold unprepare_display_off_ret unprepare_mode_flags at h ⊢
    simp [boe_panel_unprepare, boe_panel_enter_sleep_mode, mipi_dsi_dcs_set_display_off,
      dsi_request, hprep, h, dev_err]
  · intro hoff hsleep
    have h1 := hoff
    have h2 := hsleep
    unfold unprepare_display_off_ret unprepare_mode_flags at h1
    unfold unprepare_sleep_ret unprepare_mode_flags at h2 ⊢
    simp [boe_panel_unprepare, boe_panel_enter_sleep_mode, mipi_dsi_dcs_set_display_off,
      mipi_dsi_dcs_enter_sleep_mode, dsi_request, hprep, not_lt.mpr h1, h2, dev_err]
  · intro hoff hsleep
    rw [unprepare_ok_state env boe hprep hoff hsleep]

/-- Witness of C11: a prepared panel on a transport that rejects "display off". -/
theorem unprepare_shutdown_failure_witness :
    boe_panel_unprepare env_display_off_fails (prepared_panel boe_nt51021_10_desc) =
      (-5, { prepared_panel boe_nt51021_10_desc with
        dsi := { lanes := 4, mode_flags := 531 },
        trace := (prepared_panel boe_nt51021_10_desc).trace ++
          [Effect.dsi 531 DsiOp.dcs_set_display_off],
        log := [LogMsg.failed_to_set_panel_off (-5)] }) :=
  (unprepare_shutdown_failure env_display_off_fails (prepared_panel boe_nt51021_10_desc)
    rfl).2.1 (by decide)

/-- C12. Round trip: for an unprepared panel, with either value of
`discharge_on_disable`, a `boe_panel_prepare` that returns 0 followed at once
by a `boe_panel_unprepare` whose two shutdown writes succeed returns 0 and
leaves `prepared` false, both rails disabled and both lines low; the
descriptor, and with it `discharge_on_disable`, is the one the panel had. -/
theorem prepare_unprepare_round_trip (env : Env) (boe mid : boe_panel)
    (hunprep : boe.prepared = false)
    (hprepare : boe_panel_prepare env boe = some (0, mid))
    (hoff : 0 ≤ unprepare_display_off_ret env mid)
    (hsleep : 0 ≤ unprepare_sleep_ret env mid) :
    (boe_panel_unprepare env mid).1 = 0 ∧
    (boe_panel_unprepare env mid).2.prepared = false ∧
    (boe_panel_unprepare env mid).2.vled = false ∧
    (boe_panel_unprepare env mid).2.iovcc = false ∧
    (boe_panel_unprepare env mid).2.reset_gpio = false ∧
    (boe_panel_unprepare env mid).2.backlight_gpio = false ∧
    (boe_panel_unprepare env mid).2.desc = mid.desc := by
  have hmid := prepare_ret_prepared env boe mid 0 hunprep hprepare (le_refl _)
  rw [unprepare_ok_state env mid hmid hoff hsleep]
  simp

set_option maxRecDepth 100000 in
/-- Witness of C12: the panel's descriptor, which has `discharge_on_disable` set. -/
theorem prepare_unprepare_round_trip_witness :
    ∃ mid,
      boe_panel_prepare env_ok (boe_panel_probe boe_nt51021_10_desc) = some (0, mid) ∧
      (boe_panel_unprepare env_ok mid).2.prepared = false ∧
      (boe_panel_unprepare env_ok mid).2.vled = false ∧
      (boe_panel_unprepare env_ok mid).2.iovcc = false :=
  match h : boe_panel_prepare env_ok (boe_panel_probe boe_nt51021_10_desc) with
  | none => absurd (congrArg Option.isSome h) (by decide)
  | some (ret, mid) =>
    have hret : ret = 0 := by
      have := congrArg (Option.map Prod.fst) h
      have h0 : (boe_panel_prepare env_ok (boe_panel_probe boe_nt51021_10_desc)).map
          Prod.fst = some 0 := by decide
      rw [h0] at this
      simpa using this.symm
    have hm : boe_panel_prepare env_ok (boe_panel_probe boe_nt51021_10_desc) =
        some (0, mid) := by rw [h, hret]
    have hr := prepare_unprepare_round_trip env_ok (boe_panel_probe boe_nt51021_10_desc)
      mid rfl hm (le_refl _) (le_refl _)
    ⟨mid, by rw [hret], hr.2.1, hr.2.2.1, hr.2.2.2.1⟩

/-- C13. Idempotence: `boe_panel_prepare` on a prepared panel and
`boe_panel_unprepare` on an unprepared panel return 0 and hand back the very
state they were given, so no call is made on any collaborator.  Hence after a
`boe_panel_prepare` that returned 0 a second one returns 0 and changes
nothing, and likewise after a `boe_panel_unprepare` that returned 0, under any
environment. -/
theorem lifecycle_idempotent (env : Env) (boe : boe_panel) :
    (boe.prepared = true → boe_panel_prepare env boe = some (0, boe)) ∧
    (boe.prepared = false → boe_panel_unprepare env boe = (0, boe)) ∧
    (∀ env2 mid, boe_panel_prepare env boe = some (0, mid) →
      boe_panel_prepare env2 mid = some (0, mid)) ∧
    (∀ env2 mid, boe_panel_unprepare env boe = (0, mid) →
      boe_panel_unprepare env2 mid = (0, mid)) := by
  have hp : ∀ (e : Env) (b : boe_panel), b.prepared = true →
      boe_panel_prepare e b = some (0, b) := by
    intro e b hb
    simp [boe_panel_prepare, hb]
  have hu : ∀ (e : Env) (b : boe_panel), b.prepared = false →
      boe_panel_unprepare e b = (0, b) := by
    intro e b hb
    simp [boe_panel_unprepare, hb]
  refine ⟨hp env boe, hu env boe, ?_, ?_⟩
  · intro env2 mid h
    cases hb : boe.prepared with
    | true =>
      rw [hp env boe hb] at h
      simp only [Option.some.injEq, Prod.mk.injEq, true_and] at h
      rw [← h]
      exact hp env2 boe hb
    | false => exact hp env2 mid (prepare_ret_prepared env boe mid 0 hb h (le_refl _))
  · intro env2 mid h
    exact hu env2 mid (unprepare_ret_unprepared env boe mid h)

/-- Witness of C13: a prepared panel is handed back unchanged by `boe_panel_prepare`. -/
theorem lifecycle_idempotent_witness :
    boe_panel_prepare env_rails_fail (prepared_panel boe_nt51021_10_desc) =
      some (0, prepared_panel boe_nt51021_10_desc) :=
  (lifecycle_idempotent env_rails_fail (prepared_panel boe_nt51021_10_desc)).1 rfl

/-! ## The brightness controller -/

theorem last_written_brightness_append (mode_flags v : Nat) :
    ∀ (l : List Effect),
      last_written_brightness
        (l ++ [Effect.dsi mode_flags (DsiOp.dcs_set_display_brightness v)]) = v := by
  intro l
  induction l with
  | nil => simp [last_written_brightness]
  | cons e l ih =>
    cases e with
    | dsi f op =>
      cases op with
      | dcs_set_display_brightness b =>
        simp only [List.cons_append, last_written_brightness]
        rw [if_pos (by simp), List.append_eq, ih]
      | _ => simpa [last_written_brightness] using ih
    | _ => simpa [last_written_brightness] using ih

/-- C14. Successful `boe_panel_bl_update_status`: for a level in 0..255 whose
brightness write succeeds, the call returns 0; it drives the backlight-enable
line to `level != 0` and issues exactly one "set display brightness" request,
carrying the level itself as its 16-bit value, under mode flags whose
low-power-command bit is cleared; afterwards the bit is set again. -/
theorem set_brightness_success (env : Env) (level : Nat) (boe : boe_panel)
    (hlevel : level ≤ 255)
    (hok : 0 ≤ bl_write_ret env level boe) :
    boe_panel_bl_update_status env level boe =
        (0, { boe with
          dsi := { boe.dsi with mode_flags := lpm_restored boe },
          backlight_gpio := (level != 0),
          trace := boe.trace ++
            [Effect.gpiod_set_value Line.backlight_gpio (level != 0),
             Effect.dsi (lpm_cleared boe) (DsiOp.dcs_set_display_brightness level)] }) ∧
      lpm_cleared boe &&& MIPI_DSI_MODE_LPM = 0 ∧
      lpm_restored boe &&& MIPI_DSI_MODE_LPM = MIPI_DSI_MODE_LPM := by
  have hmod : level % 65536 = level := Nat.mod_eq_of_lt (by omega)
  refine ⟨?_, clear_bits_lpm _, set_bits_lpm _⟩
  have h := hok
  unfold bl_write_ret lpm_cleared at h
  rw [hmod] at h
  unfold lpm_restored lpm_cleared
  simp [boe_panel_bl_update_status, mipi_dsi_dcs_set_display_brightness, dsi_request,
    gpiod_set_value, hmod, not_lt.mpr h]

/-- Witness of C14: level 0 drives the backlight-enable line low and level 128
drives it high. -/
theorem set_brightness_success_witness :
    (boe_panel_bl_update_status env_ok 0 (prepared_panel boe_nt51021_10_desc)).2.backlight_gpio
      = false ∧
    (boe_panel_bl_update_status env_ok 128
      (boe_panel_probe boe_nt51021_10_desc)).2.backlight_gpio = true :=
  ⟨congrArg (fun r => r.2.backlight_gpio)
      (set_brightness_success env_ok 0 (prepared_panel boe_nt51021_10_desc)
        (by decide) (le_refl _)).1,
    congrArg (fun r => r.2.backlight_gpio)
      (set_brightness_success env_ok 128 (boe_panel_probe boe_nt51021_10_desc)
        (by decide) (le_refl _)).1⟩

/-- C15. Failed `boe_panel_bl_update_status`: for every level and every prior
value of the mode flags, if the brightness write fails the call returns the
code of the write and leaves the low-power-command bit cleared; and the call
returns a negative code exactly when the write does. -/
theorem set_brightness_failure (env : Env) (level : Nat) (boe : boe_panel) :
    (bl_write_ret env level boe < 0 →
      boe_panel_bl_update_status env level boe =
        (bl_write_ret env level boe, { boe with
          dsi := { boe.dsi with mode_flags := lpm_cleared boe },
          backlight_gpio := (level % 65536 != 0),
          trace := boe.trace ++
            [Effect.gpiod_set_value Line.backlight_gpio (level % 65536 != 0),
             Effect.dsi (lpm_cleared boe)
               (DsiOp.dcs_set_display_brightness (level % 65536))] })) ∧
    lpm_cleared boe &&& MIPI_DSI_MODE_LPM = 0 ∧
    ((boe_panel_bl_update_status env level boe).1 < 0 ↔ bl_write_ret env level boe < 0) := by
  refine ⟨?_, clear_bits_lpm _, ?_⟩
  · intro hfail
    have h := hfail
    unfold bl_write_ret lpm_cleared at h ⊢
    simp [boe_panel_bl_update_status, mipi_dsi_dcs_set_display_brightness, dsi_request,
      gpiod_set_value, h]
  · by_cases hfail : bl_write_ret env level boe < 0
    · have h := hfail
      unfold bl_write_ret lpm_cleared at h
      simp [boe_panel_bl_update_status, mipi_dsi_dcs_set_display_brightness, dsi_request,
        gpiod_set_value, h, hfail]
    · have h := hfail
      unfold bl_write_ret lpm_cleared at h
      simp [boe_panel_bl_update_status, mipi_dsi_dcs_set_display_brightness, dsi_request,
        gpiod_set_value, h, hfail]

/-- Witness of C15: level 200 on a transport that rejects brightness writes. -/
theorem set_brightness_failure_witness :
    boe_panel_bl_update_status env_brightness_fails 200
        (boe_panel_probe boe_nt51021_10_desc) =
      (-5, { boe_panel_probe boe_nt51021_10_desc with
        dsi := { lanes := 4, mode_flags := 531 },
        backlight_gpio := true,
        trace := (boe_panel_probe boe_nt51021_10_desc).trace ++
          [Effect.gpiod_set_value Line.backlight_gpio true,
           Effect.dsi 531 (DsiOp.dcs_set_display_brightness 200)] }) :=
  (set_brightness_failure env_brightness_fails 200
    (boe_panel_probe boe_nt51021_10_desc)).1 (by decide)

/-- C16. Brightness read and round trip.  For every value the transport hands
back to a successful read, `boe_panel_bl_get_brightness` returns its low eight
bits, a value in 0..255; the read is issued under mode flags whose
low-power-command bit is cleared and the bit is set again afterwards.  Over a
transport that echoes the latest written brightness, a successful read after a
successful `boe_panel_bl_update_status` with `v` in 0..255 returns `v & 0xff`. -/
theorem get_brightness_round_trip (env : Env) (boe : boe_panel) :
    (0 ≤ bl_read_ret env boe →
      boe_panel_bl_get_brightness env boe =
        (Int.ofNat ((env.dsi_brightness boe.trace % 65536) &&& 0xff), { boe with
          dsi := { boe.dsi with mode_flags := lpm_restored boe },
          trace := boe.trace ++
            [Effect.dsi (lpm_cleared boe) DsiOp.dcs_get_display_brightness] })) ∧
    (env.dsi_brightness boe.trace % 65536) &&& 0xff ≤ 255 ∧
    lpm_cleared boe &&& MIPI_DSI_MODE_LPM = 0 ∧
    lpm_restored boe &&& MIPI_DSI_MODE_LPM = MIPI_DSI_MODE_LPM ∧
    (∀ v, v ≤ 255 →
      (∀ history, env.dsi_brightness history = last_written_brightness history) →
      0 ≤ bl_write_ret env v boe →
      0 ≤ bl_read_ret env (boe_panel_bl_update_status env v boe).2 →
      (boe_panel_bl_get_brightness env (boe_panel_bl_update_status env v boe).2).1 =
        Int.ofNat (v &&& 0xff)) := by
  have hread : ∀ b : boe_panel, 0 ≤ bl_read_ret env b →
      boe_panel_bl_get_brightness env b =
        (Int.ofNat ((env.dsi_brightness b.trace % 65536) &&& 0xff), { b with
          dsi := { b.dsi with mode_flags := lpm_restored b },
          trace := b.trace ++
            [Effect.dsi (lpm_cleared b) DsiOp.dcs_get_display_brightness] }) := by
    intro b hb
    have h := hb
    unfold bl_read_ret lpm_cleared at h
    unfold lpm_restored lpm_cleared
    simp [boe_panel_bl_get_brightness, mipi_dsi_dcs_get_display_brightness, dsi_request,
      not_lt.mpr h]
  refine ⟨hread boe, Nat.and_le_right, clear_bits_lpm _, set_bits_lpm _, ?_⟩
  intro v hv hecho hwrite hrd
  rw [hread _ hrd]
  have hmod : v % 65536 = v := Nat.mod_eq_of_lt (by omega)
  have hset := (show boe_panel_bl_update_status env v boe =
      (0, { boe with
        dsi := { boe.dsi with mode_flags := lpm_restored boe },
        backlight_gpio := (v != 0),
        trace := boe.trace ++
          [Effect.gpiod_set_value Line.backlight_gpio (v != 0),
           Effect.dsi (lpm_cleared boe) (DsiOp.dcs_set_display_brightness v)] }) from by
    have h := hwrite
    unfold bl_write_ret lpm_cleared at h
    rw [hmod] at h
    unfold lpm_restored lpm_cleared
    simp [boe_panel_bl_update_status, mipi_dsi_dcs_set_display_brightness, dsi_request,
      gpiod_set_value, hmod, not_lt.mpr h])
  rw [hset]
  simp only
  rw [hecho]
  have hlast : last_written_brightness
      (boe.trace ++
        [Effect.gpiod_set_value Line.backlight_gpio (v != 0),
         Effect.dsi (lpm_cleared boe) (DsiOp.dcs_set_display_brightness v)]) = v := by
    have := last_written_brightness_append (lpm_cleared boe) v
      (boe.trace ++ [Effect.gpiod_set_value Line.backlight_gpio (v != 0)])
    simpa using this
  rw [hlast, hmod]

/-- Witness of C16: level 128 written and read back over the echoing transport. -/
theorem get_brightness_round_trip_witness :
    (boe_panel_bl_get_brightness env_echo
      (boe_panel_bl_update_status env_echo 128
        (prepared_panel boe_nt51021_10_desc)).2).1 = 128 :=
  (get_brightness_round_trip env_echo (prepared_panel boe_nt51021_10_desc)).2.2.2.2
    128 (by decide) (fun _ => rfl) (by decide) (by decide)

/-! ## The two power-down orderings -/

/-- C17, refuted as stated: with every call succeeding, the power-down of a
prepared panel makes 6 calls when `discharge_on_disable` is set and 7 when it
is not, so the two orderings do not have the same number of steps. -/
theorem power_down_step_counts_differ :
    (power_down_steps env_ok (prepared_panel boe_nt51021_10_desc)).length = 6 ∧
    (power_down_steps env_ok (prepared_panel no_discharge_desc)).length = 7 ∧
    ¬ ((power_down_steps env_ok (prepared_panel boe_nt51021_10_desc)).length =
      (power_down_steps env_ok (prepared_panel no_discharge_desc)).length) := by
  decide

/-- C17, amended.  For a prepared panel whose shutdown writes succeed, the calls
of `boe_panel_unprepare` after the 150 ms wait are the literal sequence
selected by `discharge_on_disable`.  The two sequences are distinct; leaving
the waits aside they hold the same four rail and line operations (disable
vled, disable iovcc, reset 0, backlight 0) in a different order; and they
differ in length: 6 steps with two waits when the flag is set, 7 steps with
three waits when it is not. -/
theorem power_down_orderings (env : Env) (boe : boe_panel)
    (hprep : boe.prepared = true)
    (hoff : 0 ≤ unprepare_display_off_ret env boe)
    (hsleep : 0 ≤ unprepare_sleep_ret env boe) :
    power_down_steps env boe = power_down_trace boe.desc.discharge_on_disable ∧
    power_down_trace true ≠ power_down_trace false ∧
    (power_down_trace true).length = 6 ∧
    (power_down_trace false).length = 7 ∧
    without_waits (power_down_trace true) =
      [Effect.regulator_disable Rail.vled,
       Effect.regulator_disable Rail.iovcc,
       Effect.gpiod_set_value Line.reset_gpio false,
       Effect.gpiod_set_value Line.backlight_gpio false] ∧
    without_waits (power_down_trace false) =
      [Effect.gpiod_set_value Line.reset_gpio false,
       Effect.regulator_disable Rail.vled,
       Effect.regulator_disable Rail.iovcc,
       Effect.gpiod_set_value Line.backlight_gpio false] ∧
    (without_waits (power_down_trace true)).Perm
      (without_waits (power_down_trace false)) := by
  refine ⟨?_, by decide, by decide, by decide, by decide, by decide, by decide⟩
  unfold power_down_steps
  rw [unprepare_ok_state env boe hprep hoff hsleep]
  simp

/-- Witness of C17 amended: the prepared panel without `discharge_on_disable`. -/
theorem power_down_orderings_witness :
    power_down_steps env_disable_fails (prepared_panel no_discharge_desc) =
      [Effect.gpiod_set_value Line.reset_gpio false,
       Effect.usleep_range 500 1000,
       Effect.regulator_disable Rail.vled,
       Effect.regulator_disable Rail.iovcc,
       Effect.usleep_range 5000 7000,
       Effect.gpiod_set_value Line.backlight_gpio false,
       Effect.usleep_range 500 1000] :=
  (power_down_orderings env_disable_fails (prepared_panel no_discharge_desc)
    rfl (by decide) (by decide)).1

/-! ## A write failure at entry 3 of `boe_init_cmd` -/

set_option maxRecDepth 100000 in
/-- C18, refuted as stated: from the bind-time state, on a transport that rejects
the write of entry 3 of `boe_init_cmd`, `boe_panel_prepare` returns the error
and its diagnostic names index 3, but the trace holds 3 transport writes in
all, the rejected one included: 2 writes were issued before the failing one,
not 3, because entry 0 of the table is a delay. -/
theorem three_writes_before_entry_3_refuted :
    (boe_panel_prepare env_write_fails (boe_panel_probe boe_nt51021_10_desc)).map
        (fun r => (r.1, r.2.log, dsi_write_count r.2.trace)) =
      some (-5, [LogMsg.failed_to_write_command 3, LogMsg.failed_to_init_panel (-5)], 3) ∧
    ¬ ((boe_panel_prepare env_write_fails (boe_panel_probe boe_nt51021_10_desc)).map
        (fun r => dsi_write_count r.2.trace - 1) = some 3) := by
  decide

set_option maxRecDepth 100000 in
/-- C18, amended.  For an unprepared panel whose table is `boe_init_cmd`, if both
rail enables succeed, the writes of entries 1 and 2 succeed and the write of
entry 3 fails, `boe_panel_prepare` returns the code of that write, names index
3 in its diagnostic, and ends with both rails disabled, both lines low and
`prepared` false.  Before the failing write the interpreter has issued the
delay of entry 0 and exactly 2 writes (entries 1 and 2); after it only the
rollback follows. -/
theorem prepare_failure_at_entry_3 (env : Env) (boe : boe_panel)
    (hunprep : boe.prepared = false)
    (htable : boe.desc.init_cmds = some boe_init_cmd)
    (hiovcc : 0 ≤ prepare_iovcc_ret env boe)
    (hvled : 0 ≤ prepare_vled_ret env boe)
    (h1 : 0 ≤ env.dsi_transfer
      (boe.trace ++ power_on_trace ++ [Effect.msleep 24])
      boe.dsi.mode_flags (DsiOp.dcs_write 0xB0 [0x05]))
    (h2 : 0 ≤ env.dsi_transfer
      (boe.trace ++ power_on_trace ++
        [Effect.msleep 24,
         Effect.dsi boe.dsi.mode_flags (DsiOp.dcs_write 0xB0 [0x05])])
      boe.dsi.mode_flags (DsiOp.dcs_write 0xB1 [0xE5]))
    (h3 : env.dsi_transfer
      (boe.trace ++ power_on_trace ++
        [Effect.msleep 24,
         Effect.dsi boe.dsi.mode_flags (DsiOp.dcs_write 0xB0 [0x05]),
         Effect.dsi boe.dsi.mode_flags (DsiOp.dcs_write 0xB1 [0xE5])])
      boe.dsi.mode_flags (DsiOp.dcs_write 0xB3 [0x52]) < 0) :
    boe_panel_prepare env boe =
      some (env.dsi_transfer
          (boe.trace ++ power_on_trace ++
            [Effect.msleep 24,
             Effect.dsi boe.dsi.mode_flags (DsiOp.dcs_write 0xB0 [0x05]),
             Effect.dsi boe.dsi.mode_flags (DsiOp.dcs_write 0xB1 [0xE5])])
          boe.dsi.mode_flags (DsiOp.dcs_write 0xB3 [0x52]),
        { boe with
          vled := false, iovcc := false, reset_gpio := false, backlight_gpio := false,
          prepared := false,
          trace := boe.trace ++ power_on_trace ++
            [Effect.msleep 24,
             Effect.dsi boe.dsi.mode_flags (DsiOp.dcs_write 0xB0 [0x05]),
             Effect.dsi boe.dsi.mode_flags (DsiOp.dcs_write 0xB1 [0xE5]),
             Effect.dsi boe.dsi.mode_flags (DsiOp.dcs_write 0xB3 [0x52])] ++
            [Effect.regulator_disable Rail.vled,
             Effect.regulator_disable Rail.iovcc,
             Effect.usleep_range 5000 7000,
             Effect.gpiod_set_value Line.backlight_gpio false,
             Effect.gpiod_set_value Line.reset_gpio false],
          log := boe.log ++
            [LogMsg.failed_to_write_command 3,
             LogMsg.failed_to_init_panel (env.dsi_transfer
              (boe.trace ++ power_on_trace ++
                [Effect.msleep 24,
                 Effect.dsi boe.dsi.mode_flags (DsiOp.dcs_write 0xB0 [0x05]),
                 Effect.dsi boe.dsi.mode_flags (DsiOp.dcs_write 0xB1 [0xE5])])
              boe.dsi.mode_flags (DsiOp.dcs_write 0xB3 [0x52]))] }) := by
  obtain ⟨tail, hT⟩ : ∃ tail, boe_init_cmd =
      _INIT_DELAY_CMD [24] :: _INIT_DCS_CMD [0xB0, 0x05] :: _INIT_DCS_CMD [0xB1, 0xE5] ::
        _INIT_DCS_CMD [0xB3, 0x52] :: tail :=
    ⟨boe_init_cmd.drop 4, rfl⟩
  have hinterp : boe_panel_init_dcs_cmd env (powered_on boe) =
      some (env.dsi_transfer
          (boe.trace ++ power_on_trace ++
            [Effect.msleep 24,
             Effect.dsi boe.dsi.mode_flags (DsiOp.dcs_write 0xB0 [0x05]),
             Effect.dsi boe.dsi.mode_flags (DsiOp.dcs_write 0xB1 [0xE5])])
          boe.dsi.mode_flags (DsiOp.dcs_write 0xB3 [0x52]),
        { powered_on boe with
          trace := boe.trace ++ power_on_trace ++
            [Effect.msleep 24,
             Effect.dsi boe.dsi.mode_flags (DsiOp.dcs_write 0xB0 [0x05]),
             Effect.dsi boe.dsi.mode_flags (DsiOp.dcs_write 0xB1 [0xE5]),
             Effect.dsi boe.dsi.mode_flags (DsiOp.dcs_write 0xB3 [0x52])],
          log := boe.log ++ [LogMsg.failed_to_write_command 3] }) := by
    have htab : (powered_on boe).desc.init_cmds = some boe_init_cmd := htable
    unfold boe_panel_init_dcs_cmd
    rw [htab]
    simp only
    rw [hT]
    simp only [List.append_assoc, List.cons_append, List.nil_append] at h1 h2 h3 ⊢
    have h24 : ((24 : Byte) : Nat) = 24 := rfl
    simp [init_dcs_cmd_loop, init_dcs_cmd_switch, _INIT_DELAY_CMD, _INIT_DCS_CMD,
      mipi_dsi_dcs_write, dsi_request, msleep, char_to_uint, dev_err, powered_on,
      h24, not_lt.mpr h1, not_lt.mpr h2, h3]
  rw [prepare_rails_ok env boe hunprep hiovcc hvled, hinterp]
  simp only [List.append_assoc, List.cons_append, List.nil_append] at h3 ⊢
  simp [h3, poweroff, poweroffiovcc, regulator_disable, set_rail, usleep_range,
    gpiod_set_value, dev_err, powered_on, hunprep]

set_option maxRecDepth 100000 in
/-- Witness of C18 amended: the bind-time state on the transport that rejects the
write of entry 3. -/
theorem prepare_failure_at_entry_3_witness :
    (boe_panel_prepare env_write_fails (boe_panel_probe boe_nt51021_10_desc)).map
        (fun r => (r.1, r.2.vled, r.2.iovcc, r.2.prepared)) =
      some (-5, false, false, false) :=
  congrArg (Option.map (fun r => (r.1, r.2.vled, r.2.iovcc, r.2.prepared)))
    (prepare_failure_at_entry_3 env_write_fails (boe_panel_probe boe_nt51021_10_desc)
      rfl rfl (by decide) (by decide) (by decide) (by decide) (by decide))

/-! ## The delays and the shape of `boe_init_cmd` -/

theorem dsi_write_count_map (mode_flags : Nat) :
    ∀ (L : List panel_init_cmd),
      dsi_write_count (L.map (cmd_effect mode_flags)) = table_write_count L := by
  intro L
  induction L with
  | nil => rfl
  | cons c L ih =>
    obtain ⟨type, len, data⟩ := c
    cases type <;>
      simp [dsi_write_count, table_write_count, cmd_effect, cmd_write_op, ih]

theorem total_msleep_map (mode_flags : Nat) :
    ∀ (L : List panel_init_cmd),
      total_msleep (L.map (cmd_effect mode_flags)) = table_msleep L := by
  intro L
  induction L with
  | nil => rfl
  | cons c L ih =>
    obtain ⟨type, len, data⟩ := c
    cases type <;>
      simp [total_msleep, table_msleep, cmd_effect, cmd_write_op, ih]

theorem all_writes_ok_cmd_err (env : Env)
    (hwrite : ∀ history mode_flags op, 0 ≤ env.dsi_transfer history mode_flags op)
    (history : List Effect) (mode_flags : Nat) (e : panel_init_cmd) :
    0 ≤ cmd_err env history mode_flags e := by
  unfold cmd_err
  cases e.type
  · exact hwrite _ _ _
  · exact le_refl _

set_option maxRecDepth 100000 in
/-- C19. Delay arithmetic of `boe_panel_init_dcs_cmd`: on a transport whose writes
succeed, a delay entry with the single byte `b` at any place before the end
marker contributes exactly one `msleep` of `b` milliseconds, `b` read as the
unsigned value 0..255 of the byte, between the calls of the entries before and
behind it.  On `boe_init_cmd` the interpreter makes 292 calls, the first of
which is `msleep 24` and the last `msleep 150`. -/
theorem delay_entry_sleeps (env : Env) (boe : boe_panel)
    (hwrite : ∀ history mode_flags op, 0 ≤ env.dsi_transfer history mode_flags op) :
    (∀ (pre mid post : List panel_init_cmd) (b : Byte) (s : panel_init_cmd),
      boe.desc.init_cmds = some ((pre ++ _INIT_DELAY_CMD [b] :: mid) ++ s :: post) →
      (∀ c ∈ pre ++ mid, c.len ≠ 0 ∧ c.len ≤ c.data.length) →
      s.len = 0 →
      b.val ≤ 255 ∧
      boe_panel_init_dcs_cmd env boe =
        some (0, { boe with
          trace := boe.trace ++ pre.map (cmd_effect boe.dsi.mode_flags) ++
            [Effect.msleep b.val] ++ mid.map (cmd_effect boe.dsi.mode_flags) })) ∧
    (boe.desc.init_cmds = some boe_init_cmd →
      ∃ final,
        boe_panel_init_dcs_cmd env boe = some (0, final) ∧
        final.trace.length = boe.trace.length + 292 ∧
        final.trace[boe.trace.length]? = some (Effect.msleep 24) ∧
        final.trace[boe.trace.length + 291]? = some (Effect.msleep 150)) := by
  constructor
  · intro pre mid post b s htable hvalid hs
    refine ⟨by have := b.isLt; omega, ?_⟩
    have hall : ∀ c ∈ pre ++ _INIT_DELAY_CMD [b] :: mid,
        c.len ≠ 0 ∧ c.len ≤ c.data.length := by
      intro c hc
      rcases List.mem_append.mp hc with h | h
      · exact hvalid c (List.mem_append.mpr (Or.inl h))
      · rcases List.mem_cons.mp h with h | h
        · subst h
          simp [_INIT_DELAY_CMD]
        · exact hvalid c (List.mem_append.mpr (Or.inr h))
    unfold boe_panel_init_dcs_cmd
    rw [htable]
    simp only
    rw [init_dcs_cmd_loop_skip env (s :: post) (pre ++ _INIT_DELAY_CMD [b] :: mid) 0 boe hall
      (fun p1 e p2 _ => all_writes_ok_cmd_err env hwrite _ _ e)]
    simp [init_dcs_cmd_loop, hs, cmd_effect, _INIT_DELAY_CMD, char_to_uint]
  · intro htable
    have hwf : init_cmds_wellformed boe.desc.init_cmds = true := by
      rw [htable]
      decide
    refine ⟨_, init_dcs_cmd_all_ok env boe hwf hwrite, ?_, ?_, ?_⟩
    · have hlen : (entries_before_sentinel boe_init_cmd).length = 292 := by decide
      simp [htable, init_cmds_effects, hlen]
    · have h0 : (entries_before_sentinel boe_init_cmd)[0]? = some (_INIT_DELAY_CMD [24]) := by
        decide
      show (boe.trace ++ init_cmds_effects boe.dsi.mode_flags
        boe.desc.init_cmds)[boe.trace.length]? = _
      rw [List.getElem?_append_right (le_refl _), Nat.sub_self, htable]
      simp only [init_cmds_effects, List.getElem?_map, h0]
      rfl
    · have h291 : (entries_before_sentinel boe_init_cmd)[291]? =
          some (_INIT_DELAY_CMD [150]) := by
        decide
      show (boe.trace ++ init_cmds_effects boe.dsi.mode_flags
        boe.desc.init_cmds)[boe.trace.length + 291]? = _
      rw [List.getElem?_append_right (Nat.le_add_right _ _), Nat.add_sub_cancel_left, htable]
      simp only [init_cmds_effects, List.getElem?_map, h291]
      rfl

/-- Witness of C19: a table with a delay of 200 ms between two writes. -/
theorem delay_entry_sleeps_witness :
    boe_panel_init_dcs_cmd env_ok
        { boe_panel_probe boe_nt51021_10_desc with
          desc := { boe_nt51021_10_desc with
            init_cmds := some [_INIT_DCS_CMD [0x11], _INIT_DELAY_CMD [200],
              _INIT_DCS_CMD [0x29], panel_init_cmd.zero] } } =
      some (0, { boe_panel_probe boe_nt51021_10_desc with
        desc := { boe_nt51021_10_desc with
          init_cmds := some [_INIT_DCS_CMD [0x11], _INIT_DELAY_CMD [200],
            _INIT_DCS_CMD [0x29], panel_init_cmd.zero] },
        trace := (boe_panel_probe boe_nt51021_10_desc).trace ++
          [Effect.dsi 2579 (DsiOp.dcs_write 0x11 [])] ++ [Effect.msleep 200] ++
          [Effect.dsi 2579 (DsiOp.dcs_write 0x29 [])] }) :=
  ((delay_entry_sleeps env_ok
      { boe_panel_probe boe_nt51021_10_desc with
        desc := { boe_nt51021_10_desc with
          init_cmds := some [_INIT_DCS_CMD [0x11], _INIT_DELAY_CMD [200],
            _INIT_DCS_CMD [0x29], panel_init_cmd.zero] } }
      (fun _ _ _ => le_refl _)).1
    [_INIT_DCS_CMD [0x11]] [_INIT_DCS_CMD [0x29]] [] 200 panel_init_cmd.zero rfl
    (by decide) rfl).2

set_option maxRecDepth 100000 in
/-- C20. Shape of `boe_init_cmd` and what follows from it.  The array has 293
elements: 292 entries of length at least 1 and then one zero-length end marker
as its last element; entry 0 is the delay of 24, entries 1..290 are write
entries of length 2 pointing to 2 bytes, entry 291 is the delay of 150.  Hence
`boe_panel_init_dcs_cmd` over this table returns under every behaviour of the
transport, without reading past the array or past an entry's data; and when
every write succeeds it returns 0 after exactly 290 transport writes, each
with a payload of one byte, and 174 ms of `msleep` in all. -/
theorem boe_init_cmd_wellformed (env : Env) (boe : boe_panel)
    (htable : boe.desc.init_cmds = some boe_init_cmd) :
    boe_init_cmd.length = 293 ∧
    (∀ c ∈ boe_init_cmd.take 292, 1 ≤ c.len) ∧
    boe_init_cmd[292]? = some panel_init_cmd.zero ∧
    panel_init_cmd.zero.len = 0 ∧
    boe_init_cmd[0]? = some (_INIT_DELAY_CMD [24]) ∧
    ((boe_init_cmd.take 291).drop 1).length = 290 ∧
    (∀ c ∈ (boe_init_cmd.take 291).drop 1,
      c.type = dsi_cmd_type.INIT_DCS_CMD ∧ c.len = 2 ∧ c.data.length = 2) ∧
    boe_init_cmd[291]? = some (_INIT_DELAY_CMD [150]) ∧
    (∃ ret final, boe_panel_init_dcs_cmd env boe = some (ret, final)) ∧
    ((∀ history mode_flags op, 0 ≤ env.dsi_transfer history mode_flags op) →
      ∃ final tr,
        boe_panel_init_dcs_cmd env boe = some (0, final) ∧
        final.trace = boe.trace ++ tr ∧
        tr.length = 292 ∧
        dsi_write_count tr = 290 ∧
        total_msleep tr = 174 ∧
        ∀ e ∈ tr, ∀ mode_flags cmd payload,
          e = Effect.dsi mode_flags (DsiOp.dcs_write cmd payload) → payload.length = 1) := by
  refine ⟨by decide, by decide, by decide, rfl, by decide, by decide, by decide, by decide,
    ?_, ?_⟩
  · have hsplit : boe_init_cmd = boe_init_cmd.take 292 ++ panel_init_cmd.zero :: [] := by
      decide
    have hpre : ∀ c ∈ boe_init_cmd.take 292, c.len ≠ 0 ∧ c.len ≤ c.data.length := by
      decide
    obtain ⟨ret, n, lg, hrun, _, _⟩ :=
      init_dcs_cmd_loop_run env panel_init_cmd.zero [] rfl (boe_init_cmd.take 292) 0 boe hpre
    have h1 : boe_panel_init_dcs_cmd env boe = init_dcs_cmd_loop env boe_init_cmd 0 boe := by
      unfold boe_panel_init_dcs_cmd
      rw [htable]
    have h2 : init_dcs_cmd_loop env boe_init_cmd 0 boe =
        init_dcs_cmd_loop env (boe_init_cmd.take 292 ++ panel_init_cmd.zero :: []) 0 boe :=
      congrArg (fun T => init_dcs_cmd_loop env T 0 boe) hsplit
    exact ⟨ret, _, h1.trans (h2.trans hrun)⟩
  · intro hwrite
    have hwf : init_cmds_wellformed boe.desc.init_cmds = true := by
      rw [htable]
      decide
    refine ⟨_, init_cmds_effects boe.dsi.mode_flags boe.desc.init_cmds,
      init_dcs_cmd_all_ok env boe hwf hwrite, rfl, ?_, ?_, ?_, ?_⟩
    · have hlen : (entries_before_sentinel boe_init_cmd).length = 292 := by decide
      simp [htable, init_cmds_effects, hlen]
    · rw [htable]
      show dsi_write_count ((entries_before_sentinel boe_init_cmd).map
        (cmd_effect boe.dsi.mode_flags)) = 290
      rw [dsi_write_count_map]
      decide
    · rw [htable]
      show total_msleep ((entries_before_sentinel boe_init_cmd).map
        (cmd_effect boe.dsi.mode_flags)) = 174
      rw [total_msleep_map]
      decide
    · intro e he g cmd payload heq
      rw [htable] at he
      obtain ⟨c, hc, hce⟩ := List.mem_map.mp he
      have hshape : ∀ c ∈ entries_before_sentinel boe_init_cmd,
          c.type = dsi_cmd_type.DELAY_CMD ∨ (c.len = 2 ∧ c.data.length = 2) := by
        decide
      rcases hshape c hc with hd | ⟨hl, hdl⟩
      · rw [heq] at hce
        simp [cmd_effect, hd] at hce
      · rw [heq] at hce
        cases hty : c.type with
        | DELAY_CMD => simp [cmd_effect, hty] at hce
        | INIT_DCS_CMD =>
          simp only [cmd_effect, hty, cmd_write_op, Effect.dsi.injEq, DsiOp.dcs_write.injEq] at hce
          rw [← hce.2.2]
          simp [hl, hdl]

set_option maxRecDepth 100000 in
/-- Witness of C20: the bind-time state of the panel in an environment where every
call succeeds. -/
theorem boe_init_cmd_wellformed_witness :
    ∃ final tr,
      boe_panel_init_dcs_cmd env_ok (boe_panel_probe boe_nt51021_10_desc) = some (0, final) ∧
      final.trace = (boe_panel_probe boe_nt51021_10_desc).trace ++ tr ∧
      tr.length = 292 ∧ dsi_write_count tr = 290 ∧ total_msleep tr = 174 :=
  have h := (boe_init_cmd_wellformed env_ok (boe_panel_probe boe_nt51021_10_desc)
    rfl).2.2.2.2.2.2.2.2.2 (fun _ _ _ => le_refl _)
  h.elim fun final h1 => h1.elim fun tr h2 =>
    ⟨final, tr, h2.1, h2.2.1, h2.2.2.1, h2.2.2.2.1, h2.2.2.2.2.1⟩

/-! ## Lemmas on the transport mode flags -/

theorem init_dcs_cmd_switch_flags (env : Env) (cmd : panel_init_cmd) (boe final : boe_panel)
    (err : Int) (h : init_dcs_cmd_switch env cmd boe = some (err, final)) :
    ∃ x, final = { boe with trace := boe.trace ++ [x] } ∧
      ∀ f op, x = Effect.dsi f op → f = boe.dsi.mode_flags := by
  obtain ⟨type, len, data⟩ := cmd
  cases data with
  | nil => cases type <;> simp [init_dcs_cmd_switch] at h
  | cons d rest =>
    cases type with
    | DELAY_CMD =>
      simp only [init_dcs_cmd_switch, msleep, Option.some.injEq, Prod.mk.injEq] at h
      exact ⟨_, h.2.symm, fun f op hx => by simp at hx⟩
    | INIT_DCS_CMD =>
      simp only [init_dcs_cmd_switch, mipi_dsi_dcs_write, dsi_request] at h
      split_ifs at h
      · simp only [Option.some.injEq, Prod.mk.injEq] at h
        exact ⟨_, h.2.symm, fun f op hx => by simp at hx; exact hx.1.symm⟩
      · simp only [Option.some.injEq, Prod.mk.injEq] at h
        exact ⟨_, h.2.symm, fun f op hx => by simp at hx; exact hx.1.symm⟩

theorem init_dcs_cmd_loop_flags (env : Env) :
    ∀ (T : List panel_init_cmd) (i : Nat) (boe final : boe_panel) (ret : Int),
      init_dcs_cmd_loop env T i boe = some (ret, final) →
      ∃ tr lg, final = { boe with trace := boe.trace ++ tr, log := boe.log ++ lg } ∧
        ∀ f op, Effect.dsi f op ∈ tr → f = boe.dsi.mode_flags := by
  intro T
  induction T with
  | nil => intro i boe final ret h; simp [init_dcs_cmd_loop] at h
  | cons c T ih =>
    intro i boe final ret h
    simp only [init_dcs_cmd_loop] at h
    split_ifs at h with hlen
    · simp only [Option.some.injEq, Prod.mk.injEq] at h
      exact ⟨[], [], by simp [← h.2], fun f op hm => by simp at hm⟩
    · cases hsw : init_dcs_cmd_switch env c boe with
      | none => simp [hsw] at h
      | some r =>
        obtain ⟨err, mid⟩ := r
        obtain ⟨x, hx, hxf⟩ := init_dcs_cmd_switch_flags env c boe mid err hsw
        simp only [hsw] at h
        split_ifs at h with herr
        · simp only [Option.some.injEq, Prod.mk.injEq] at h
          refine ⟨[x], [LogMsg.failed_to_write_command i], by simp [← h.2, hx, dev_err], ?_⟩
          intro f op hm
          exact hxf f op (List.mem_singleton.mp hm).symm
        · obtain ⟨tr, lg, hfin, hfl⟩ := ih (i + 1) mid final ret h
          refine ⟨x :: tr, lg, by simp [hfin, hx], ?_⟩
          intro f op hm
          rcases List.mem_cons.mp hm with h1 | h1
          · exact hxf f op h1.symm
          · have := hfl f op h1
            rw [this, hx]

theorem init_dcs_cmd_flags (env : Env) (boe final : boe_panel) (ret : Int)
    (h : boe_panel_init_dcs_cmd env boe = some (ret, final)) :
    ∃ tr lg, final = { boe with trace := boe.trace ++ tr, log := boe.log ++ lg } ∧
      ∀ f op, Effect.dsi f op ∈ tr → f = boe.dsi.mode_flags := by
  unfold boe_panel_init_dcs_cmd at h
  cases hT : boe.desc.init_cmds with
  | none =>
    simp only [hT, Option.some.injEq, Prod.mk.injEq] at h
    exact ⟨[], [], by simp [← h.2], fun f op hm => by simp at hm⟩
  | some T =>
    simp only [hT] at h
    exact init_dcs_cmd_loop_flags env T 0 boe final ret h

theorem lpm_cleared_testBit (boe : boe_panel)
    (hflags : boe.dsi.mode_flags < 2 ^ BITS_PER_LONG) (i : Nat) :
    (lpm_cleared boe).testBit i = (i != 11 && boe.dsi.mode_flags.testBit i) := by
  have hlpm : MIPI_DSI_MODE_LPM = 2 ^ 11 := by decide
  unfold lpm_cleared clear_bits
  rw [hlpm, Nat.testBit_land, Nat.testBit_xor, Nat.testBit_two_pow_sub_one,
    Nat.testBit_two_pow]
  by_cases hi : i < BITS_PER_LONG
  · by_cases h11 : i = 11
    · subst h11
      simp [BITS_PER_LONG]
    · have h11b : ¬ (11 = i) := fun h => h11 h.symm
      simp [hi, h11, h11b, Bool.and_comm]
  · have hbig : boe.dsi.mode_flags < 2 ^ i :=
      lt_of_lt_of_le hflags (Nat.pow_le_pow_right (by decide) (not_lt.mp hi))
    simp [Nat.testBit_lt_two_pow hbig]

theorem unprepare_dsi (env : Env) (boe : boe_panel) (hprep : boe.prepared = true) :
    (boe_panel_unprepare env boe).2.dsi =
      { boe.dsi with mode_flags := lpm_cleared boe } := by
  unfold boe_panel_unprepare boe_panel_enter_sleep_mode
  simp only [hprep, Bool.not_true, Bool.false_eq_true, if_false]
  split_ifs <;>
    simp [mipi_dsi_dcs_set_display_off, mipi_dsi_dcs_enter_sleep_mode, dsi_request, dev_err,
      msleep, regulator_disable, set_rail, usleep_range, gpiod_set_value, lpm_cleared]

theorem keeps_refl (boe : boe_panel) : keeps_mode_flags boe boe :=
  ⟨rfl, [], by simp, fun f op hm => by simp at hm⟩

theorem keeps_step (boe s t : boe_panel) (x : Effect)
    (hs : keeps_mode_flags boe s) (hdsi : t.dsi = s.dsi) (htr : t.trace = s.trace ++ [x])
    (hx : ∀ f op, x ≠ Effect.dsi f op) :
    keeps_mode_flags boe t := by
  obtain ⟨h1, tr, h2, h3⟩ := hs
  refine ⟨hdsi.trans h1, tr ++ [x], by rw [htr, h2, List.append_assoc], ?_⟩
  intro f op hm
  rcases List.mem_append.mp hm with h | h
  · exact h3 f op h
  · exact absurd (List.mem_singleton.mp h).symm (hx f op)

theorem keeps_same_trace (boe s t : boe_panel)
    (hs : keeps_mode_flags boe s) (hdsi : t.dsi = s.dsi) (htr : t.trace = s.trace) :
    keeps_mode_flags boe t := by
  obtain ⟨h1, tr, h2, h3⟩ := hs
  exact ⟨hdsi.trans h1, tr, htr.trans h2, h3⟩

theorem keeps_gpiod (boe s : boe_panel) (line : Line) (value : Bool)
    (hs : keeps_mode_flags boe s) :
    keeps_mode_flags boe (gpiod_set_value line value s) := by
  cases line <;>
    exact keeps_step boe s _ _ hs rfl rfl (fun f op h => by cases h)

theorem keeps_usleep (boe s : boe_panel) (min max : Nat)
    (hs : keeps_mode_flags boe s) :
    keeps_mode_flags boe (usleep_range min max s) :=
  keeps_step boe s _ _ hs rfl rfl (fun f op h => by cases h)

theorem keeps_regulator_enable (env : Env) (boe s : boe_panel) (rail : Rail)
    (hs : keeps_mode_flags boe s) :
    keeps_mode_flags boe (regulator_enable env rail s).2 := by
  refine keeps_step boe s _ (Effect.regulator_enable rail) hs ?_ ?_ (fun f op h => by cases h)
  · unfold regulator_enable
    cases rail <;> simp only [set_rail] <;> split_ifs <;> rfl
  · unfold regulator_enable
    cases rail <;> simp only [set_rail] <;> split_ifs <;> rfl

theorem keeps_regulator_disable (env : Env) (boe s : boe_panel) (rail : Rail)
    (hs : keeps_mode_flags boe s) :
    keeps_mode_flags boe (regulator_disable env rail s).2 := by
  refine keeps_step boe s _ (Effect.regulator_disable rail) hs ?_ ?_ (fun f op h => by cases h)
  · cases rail <;> rfl
  · cases rail <;> rfl

theorem keeps_dev_err (boe s : boe_panel) (msg : LogMsg)
    (hs : keeps_mode_flags boe s) :
    keeps_mode_flags boe (dev_err msg s) :=
  keeps_same_trace boe s _ hs rfl rfl

theorem keeps_ite (boe a b : boe_panel) (c : Prop) [Decidable c]
    (ha : keeps_mode_flags boe a) (hb : keeps_mode_flags boe b) :
    keeps_mode_flags boe (if c then a else b) := by
  split_ifs
  · exact ha
  · exact hb

theorem keeps_init_dcs_cmd (env : Env) (boe s final : boe_panel) (ret : Int)
    (hs : keeps_mode_flags boe s)
    (h : boe_panel_init_dcs_cmd env s = some (ret, final)) :
    keeps_mode_flags boe final := by
  obtain ⟨tr, lg, hfin, hfl⟩ := init_dcs_cmd_flags env s final ret h
  obtain ⟨h1, tr0, h2, h3⟩ := hs
  refine ⟨by rw [hfin]; exact h1, tr0 ++ tr, by rw [hfin]; simp [h2], ?_⟩
  intro f op hm
  rcases List.mem_append.mp hm with h4 | h4
  · exact h3 f op h4
  · rw [hfl f op h4, h1]

theorem keeps_poweroffiovcc (env : Env) (boe s : boe_panel)
    (hs : keeps_mode_flags boe s) :
    keeps_mode_flags boe (poweroffiovcc env s) := by
  unfold poweroffiovcc
  exact keeps_gpiod _ _ _ _ (keeps_gpiod _ _ _ _ (keeps_usleep _ _ _ _
    (keeps_regulator_disable env _ _ _ hs)))

theorem prepare_flags (env : Env) (boe final : boe_panel) (ret : Int)
    (h : boe_panel_prepare env boe = some (ret, final)) :
    keeps_mode_flags boe final := by
  unfold boe_panel_prepare at h
  dsimp only at h
  split_ifs at h
  all_goals first
    | (simp only [Option.some.injEq, Prod.mk.injEq] at h
       rw [← h.2]
       repeat' first
         | exact keeps_refl _
         | apply keeps_poweroffiovcc
         | apply keeps_gpiod
         | apply keeps_usleep
         | apply keeps_regulator_enable)
    | (split at h
       · exact absurd h (by simp)
       · rename_i r b hinterp
         have hb : keeps_mode_flags boe b := by
           refine keeps_init_dcs_cmd env boe _ b r ?_ hinterp
           repeat' first
             | exact keeps_refl _
             | apply keeps_gpiod
             | apply keeps_usleep
             | apply keeps_regulator_enable
         split_ifs at h
         · simp only [Option.some.injEq, Prod.mk.injEq] at h
           rw [← h.2]
           unfold poweroff
           exact keeps_poweroffiovcc env boe _
             (keeps_regulator_disable env boe _ Rail.vled (keeps_dev_err boe _ _ hb))
         · simp only [Option.some.injEq, Prod.mk.injEq] at h
           rw [← h.2]
           exact keeps_same_trace boe b _ hb rfl rfl)

/-! ## The low-power-command flag across the lifecycle operations -/

/-- C21. Frame of the low-power-command flag.  `boe_panel_unprepare` on a prepared
panel leaves the transport handle with exactly the low-power-command bit (bit
11) cleared and every other bit and member as it was, on every return path,
whatever the transport answers.  `boe_panel_prepare` and `boe_panel_enable`
leave the transport handle as it was, and every transport request of a
`boe_panel_prepare` is issued under the mode flags found at entry.  So the
requests of a prepare that follows an unprepare carry the flags with the bit
cleared, while those of a prepare made from the bind-time state carry the
descriptor's mode flags, in which `boe_nt51021_10_desc` has the bit set. -/
theorem lpm_flag_frame (env : Env) (boe : boe_panel)
    (hflags : boe.dsi.mode_flags < 2 ^ BITS_PER_LONG) :
    (boe.prepared = true →
      (boe_panel_unprepare env boe).2.dsi =
          { boe.dsi with mode_flags := lpm_cleared boe } ∧
        lpm_cleared boe &&& MIPI_DSI_MODE_LPM = 0 ∧
        ∀ i, (lpm_cleared boe).testBit i = (i != 11 && boe.dsi.mode_flags.testBit i)) ∧
    (∀ ret final, boe_panel_prepare env boe = some (ret, final) →
      final.dsi = boe.dsi ∧
      ∃ tr, final.trace = boe.trace ++ tr ∧
        ∀ f op, Effect.dsi f op ∈ tr → f = boe.dsi.mode_flags) ∧
    (boe_panel_enable boe).2.dsi = boe.dsi ∧
    (boe.prepared = true →
      ∀ ret final,
        boe_panel_prepare env (boe_panel_unprepare env boe).2 = some (ret, final) →
        final.dsi.mode_flags = lpm_cleared boe ∧
        ∃ tr, final.trace = (boe_panel_unprepare env boe).2.trace ++ tr ∧
          ∀ f op, Effect.dsi f op ∈ tr → f = lpm_cleared boe) ∧
    (∀ desc ret final,
      boe_panel_prepare env (boe_panel_probe desc) = some (ret, final) →
      final.dsi.mode_flags = desc.mode_flags ∧
      ∃ tr, final.trace = (boe_panel_probe desc).trace ++ tr ∧
        ∀ f op, Effect.dsi f op ∈ tr → f = desc.mode_flags) ∧
    boe_nt51021_10_desc.mode_flags &&& MIPI_DSI_MODE_LPM = MIPI_DSI_MODE_LPM := by
  refine ⟨?_, ?_, rfl, ?_, ?_, by decide⟩
  · intro hprep
    exact ⟨unprepare_dsi env boe hprep, clear_bits_lpm _, lpm_cleared_testBit boe hflags⟩
  · intro ret final h
    exact prepare_flags env boe final ret h
  · intro hprep ret final h
    have hk := prepare_flags env _ final ret h
    have hd := unprepare_dsi env boe hprep
    obtain ⟨h1, tr, h2, h3⟩ := hk
    refine ⟨by rw [h1, hd], tr, h2, ?_⟩
    intro f op hm
    rw [h3 f op hm, hd]
  · intro desc ret final h
    obtain ⟨h1, tr, h2, h3⟩ := prepare_flags env _ final ret h
    refine ⟨by rw [h1]; rfl, tr, h2, ?_⟩
    intro f op hm
    rw [h3 f op hm]
    rfl

set_option maxRecDepth 100000 in
/-- Witness of C21: the prepared panel is unprepared and prepared again; its table
goes out under flags 531 (bit 11 clear), while from the bind-time state it
goes out under the descriptor's flags 2579 (bit 11 set). -/
theorem lpm_flag_frame_witness :
    (boe_panel_unprepare env_ok (prepared_panel boe_nt51021_10_desc)).2.dsi.mode_flags = 531 ∧
    (boe_panel_prepare env_ok
        (boe_panel_unprepare env_ok (prepared_panel boe_nt51021_10_desc)).2).map
      (fun r => (r.1, r.2.dsi.mode_flags, (r.2.trace.drop 37).take 2)) =
      some (0, 531, [Effect.msleep 24, Effect.dsi 531 (DsiOp.dcs_write 0xB0 [0x05])]) ∧
    (boe_panel_prepare env_ok (boe_panel_probe boe_nt51021_10_desc)).map
      (fun r => (r.1, r.2.dsi.mode_flags, (r.2.trace.drop 15).take 2)) =
      some (0, 2579, [Effect.msleep 24, Effect.dsi 2579 (DsiOp.dcs_write 0xB0 [0x05])]) :=
  ⟨congrArg mipi_dsi_device.mode_flags
      ((lpm_flag_frame env_ok (prepared_panel boe_nt51021_10_desc) (by decide)).1 rfl).1,
    by decide, by decide⟩

end BoeNt51021
